import Mathlib

/-!
Verification development for the wu-mqtt-bridge repository: a shallow
embedding in Lean 4 of the weather-data decoders (`weather.py`) and the
MQTT topic/payload generation logic (`mqtt.py`), together with theorems
settling the specified properties of the pipeline.

Conventions of the embedding:
* Python `float` values are modelled as `ℚ` (no floating-point arithmetic
  is ever performed by the code on these values — they are passed through
  verbatim), Python `int` as `Int`, Python `str` as `String`.
* A JSON-like value type `JVal` models the loosely-typed payloads handed
  to `json.dumps`.
* `None`-able values are `Option`s; a missing key read through
  `dict.get(k, default)` is modelled by the default directly, since the
  code cannot distinguish a missing key from the default.
* Exceptions are modelled by `Option`/`Except` results; `try/except`
  becomes a `match` on an explicit outcome type.
-/

namespace WuMqttBridge

/-- JSON-like values, modelling the loosely typed Python objects that are
built for MQTT payloads.  Object fields are kept as an insertion-ordered
association list, matching Python dict semantics. -/
inductive JVal where
  | nul : JVal
  | boolean (b : Bool) : JVal
  | num (q : ℚ) : JVal
  | int (n : Int) : JVal
  | str (s : String) : JVal
  | arr (xs : List JVal) : JVal
  | obj (kvs : List (String × JVal)) : JVal

/-- `jnum o` embeds an optional float field into `JVal` (`None` ↦ JSON null). -/
def jnum (o : Option ℚ) : JVal :=
  match o with
  | none => JVal.nul
  | some q => JVal.num q

/-- `jint o` embeds an optional int field into `JVal` (`None` ↦ JSON null). -/
def jint (o : Option Int) : JVal :=
  match o with
  | none => JVal.nul
  | some n => JVal.int n

/-- `jstr o` embeds an optional string field into `JVal` (`None` ↦ JSON null). -/
def jstr (o : Option String) : JVal :=
  match o with
  | none => JVal.nul
  | some s => JVal.str s

/-! ## weather.py — data model -/

/-- `CurrentConditions` dataclass (weather.py).  All fields independently
nullable. -/
structure CurrentConditions where
  temperature : Option ℚ
  feels_like : Option ℚ
  humidity : Option Int
  wind_speed : Option ℚ
  wind_direction_cardinal : Option String
  uv_index : Option Int
  condition : Option String
  icon_code : Option Int
  pressure : Option ℚ
  visibility : Option ℚ
  deriving DecidableEq

/-- `DayForecast` dataclass (weather.py), fields in declaration order. -/
structure DayForecast where
  day_of_week : String
  date : String
  temp_max : Option ℚ
  temp_min : Option ℚ
  narrative : String
  precip_chance_day : Option Int
  precip_chance_night : Option Int
  condition_day : Option String
  condition_night : Option String
  icon_code_day : Option Int
  icon_code_night : Option Int
  humidity_day : Option Int
  humidity_night : Option Int
  wind_speed_day : Option ℚ
  wind_speed_night : Option ℚ
  wind_direction_day : Option String
  wind_direction_night : Option String
  qpf : Option ℚ
  uv_index_day : Option Int
  deriving DecidableEq

/-- `HourForecast` dataclass (weather.py). -/
structure HourForecast where
  time_local : String
  hour : Int
  temperature : Option ℚ
  condition : Option String
  icon_code : Option Int
  qpf : Option ℚ
  deriving DecidableEq

/-- The first element of the `daypart` array of a daily-forecast response:
seven parallel arrays read through `.get(key, [])`, so a missing key is
indistinguishable from an empty array and is modelled as `[]`. -/
structure Daypart where
  precipChance : List Int
  wxPhraseLong : List String
  iconCode : List Int
  relativeHumidity : List Int
  windSpeed : List ℚ
  windDirectionCardinal : List String
  uvIndex : List Int
  deriving DecidableEq

/-- The `{}` fallback daypart object: every `.get(key, [])` yields `[]`. -/
def Daypart.empty : Daypart :=
  ⟨[], [], [], [], [], [], []⟩

/-- The top-level keys of a daily-forecast response that `_parse_forecast`
reads.  Each array key is read through `.get(key, [])` (missing ≡ `[]`);
`daypart` is read through `.get("daypart")`, where both a missing key and
an empty array are falsy, so `[]` models both. -/
structure ForecastData where
  dayOfWeek : List String
  validTimeLocal : List String
  calendarDayTemperatureMax : List ℚ
  calendarDayTemperatureMin : List ℚ
  narrative : List String
  qpf : List ℚ
  daypart : List Daypart
  deriving DecidableEq

/-- The keys of an hourly-forecast response that `_parse_hourly` reads,
each through `.get(key, [])`. -/
structure HourlyData where
  validTimeLocal : List String
  temperature : List ℚ
  wxPhraseLong : List String
  iconCode : List Int
  qpf : List ℚ
  deriving DecidableEq

/-! ## weather.py — decoders -/

/-- `_safe_idx(lst, idx)`: `lst[idx] if idx < len(lst) else None`. -/
def safe_idx {α : Type} (lst : List α) (idx : Nat) : Option α :=
  if idx < lst.length then lst[idx]? else none

/-- The daypart object `_parse_forecast` reads its nested arrays from:
`data.get("daypart", [{}])[0] if data.get("daypart") else {}`. -/
def daypart0 (data : ForecastData) : Daypart :=
  match data.daypart with
  | [] => Daypart.empty  -- `data.get("daypart")` falsy: absent or empty
  | d :: _ => d          -- `data.get("daypart", [{}])[0]`

/-- `_parse_forecast(data)`: iterate `i` over `range(len(dayOfWeek))`,
correlating all parallel arrays positionally; daypart-nested arrays are
indexed at `2i` (day) and `2i + 1` (night) via `_safe_idx`; the top-level
scalar arrays are indexed at `i` with the same inline bounds test. -/
def parse_forecast (data : ForecastData) : List DayForecast :=
  let daypart := daypart0 data
  data.dayOfWeek.enum.map (fun p =>
    let i := p.1
    let day_idx := i * 2
    let night_idx := i * 2 + 1
    { day_of_week := p.2  -- `days_of_week[i]`, in bounds by construction
      -- `valid_times[i][:10] if i < len(valid_times) else ""`
      date := match data.validTimeLocal[i]? with
        | some t => t.take 10
        | none => ""
      temp_max := safe_idx data.calendarDayTemperatureMax i
      temp_min := safe_idx data.calendarDayTemperatureMin i
      -- `narratives[i] if i < len(narratives) else ""`
      narrative := (safe_idx data.narrative i).getD ""
      precip_chance_day := safe_idx daypart.precipChance day_idx
      precip_chance_night := safe_idx daypart.precipChance night_idx
      condition_day := safe_idx daypart.wxPhraseLong day_idx
      condition_night := safe_idx daypart.wxPhraseLong night_idx
      icon_code_day := safe_idx daypart.iconCode day_idx
      icon_code_night := safe_idx daypart.iconCode night_idx
      humidity_day := safe_idx daypart.relativeHumidity day_idx
      humidity_night := safe_idx daypart.relativeHumidity night_idx
      wind_speed_day := safe_idx daypart.windSpeed day_idx
      wind_speed_night := safe_idx daypart.windSpeed night_idx
      wind_direction_day := safe_idx daypart.windDirectionCardinal day_idx
      wind_direction_night := safe_idx daypart.windDirectionCardinal night_idx
      qpf := safe_idx data.qpf i
      uv_index_day := safe_idx daypart.uvIndex day_idx })

/-- The numeric value of a nonempty all-digit character list, base 10;
`none` when the list is empty or holds a non-digit. -/
def digits_to_nat (cs : List Char) : Option Nat :=
  if cs.isEmpty then none
  else cs.foldl
    (fun acc c => acc.bind (fun n =>
      if c.isDigit then some (10 * n + (c.toNat - 48)) else none))
    (some 0)

/-- ASCII whitespace as stripped by Python `int()` / `str.strip()`. -/
def is_py_space (c : Char) : Bool :=
  c = ' ' ∨ c = '\t' ∨ c = '\n' ∨ c = '\r' ∨ c.toNat = 11 ∨ c.toNat = 12

/-- Strip leading and trailing whitespace from a character list. -/
def py_strip (cs : List Char) : List Char :=
  ((cs.dropWhile is_py_space).reverse.dropWhile is_py_space).reverse

/-- Models Python `int(s)` on a base-10 string: surrounding whitespace is
stripped, an optional single sign precedes the digits, and a value that is
not a well-formed integer literal raises `ValueError` (here: `none`).
(Digit-group underscores, which never occur in timestamps, are not
modelled.) -/
def py_int (s : String) : Option Int :=
  match py_strip s.data with
  | '-' :: cs => (digits_to_nat cs).map (fun n => -(n : Int))
  | '+' :: cs => (digits_to_nat cs).map (fun n => (n : Int))
  | cs => (digits_to_nat cs).map (fun n => (n : Int))

/-- `int(time_str[11:13])`: the hour-of-day field of the timestamp. -/
def hour_of (time_str : String) : Option Int :=
  py_int ((time_str.drop 11).take 2)

/-- The loop body of `_parse_hourly` over the indexed timestamps: skip an
entry whose date component differs from `today`; otherwise parse the hour
(`int` raises on a malformed substring, modelled by `none` propagating)
and emit an `HourForecast` with the remaining arrays indexed at the
entry's original source index. -/
def parse_hourly_go (data : HourlyData) (today : String) :
    List (Nat × String) → Option (List HourForecast)
  | [] => some []
  | (i, time_str) :: rest =>
    if time_str.take 10 ≠ today then parse_hourly_go data today rest
    else match hour_of time_str with
      | none => none
      | some hour =>
        (parse_hourly_go data today rest).map (fun hs =>
          { time_local := time_str
            hour := hour
            temperature := safe_idx data.temperature i
            condition := safe_idx data.wxPhraseLong i
            icon_code := safe_idx data.iconCode i
            qpf := safe_idx data.qpf i } :: hs)

/-- `_parse_hourly(data)`: empty `validTimeLocal` yields `[]`; otherwise
`today` is the first 10 characters of the first timestamp and the loop
keeps exactly the entries matching it. -/
def parse_hourly (data : HourlyData) : Option (List HourForecast) :=
  match data.validTimeLocal with
  | [] => some []
  | t0 :: _ => parse_hourly_go data (t0.take 10) data.validTimeLocal.enum

/-! ## weather.py — fetch layer

Each `WeatherClient.fetch_*` method performs one HTTP GET, calls
`raise_for_status()` and decodes the JSON body.  The outcome of that
I/O sequence is modelled explicitly; the `try/except` structure of the
source becomes a `match` on the outcome. -/

/-- Outcome of one HTTP GET + `raise_for_status()` + `resp.json()`:
either a decoded body, or an `httpx.HTTPStatusError` (non-2xx status), or
a transport-level failure, or a body that fails to decode as JSON. -/
inductive FetchOutcome (α : Type) where
  | success (body : α)
  | httpStatusError (status : Nat)
  | transportError
  | decodeError

/-- An exception propagating out of a fetch. -/
inductive FetchError where
  | httpStatus (status : Nat)
  | transport
  | decode
  deriving DecidableEq

/-- The keys of a current-observation response read by `fetch_current`,
each through `data.get(key)` (missing key ↦ `None`). -/
structure CurrentData where
  temperature : Option ℚ
  temperatureFeelsLike : Option ℚ
  relativeHumidity : Option Int
  windSpeed : Option ℚ
  windDirectionCardinal : Option String
  uvIndex : Option Int
  wxPhraseLong : Option String
  iconCode : Option Int
  pressureAltimeter : Option ℚ
  visibility : Option ℚ

/-- The field-by-field decode of a current-observation body performed in
the `try` block of `fetch_current` (`data.get(...)` for each field). -/
def decode_current (data : CurrentData) : CurrentConditions :=
  { temperature := data.temperature
    feels_like := data.temperatureFeelsLike
    humidity := data.relativeHumidity
    wind_speed := data.windSpeed
    wind_direction_cardinal := data.windDirectionCardinal
    uv_index := data.uvIndex
    condition := data.wxPhraseLong
    icon_code := data.iconCode
    pressure := data.pressureAltimeter
    visibility := data.visibility }

/-- `fetch_current`: returns `None` on failure — `except HTTPStatusError`
and `except Exception` both log a warning and return `None`. -/
def fetch_current (o : FetchOutcome CurrentData) : Option CurrentConditions :=
  match o with
  | .success data => some (decode_current data)
  | .httpStatusError _ => none
  | .transportError => none
  | .decodeError => none

/-- `fetch_forecast`: no `try/except` — any fetch-level failure
propagates as an exception; on success the body is parsed and returned
together with the raw body. -/
def fetch_forecast (o : FetchOutcome ForecastData) :
    Except FetchError (List DayForecast × ForecastData) :=
  match o with
  | .success data => .ok (parse_forecast data, data)
  | .httpStatusError s => .error (.httpStatus s)
  | .transportError => .error .transport
  | .decodeError => .error .decode

/-- `fetch_hourly`: `_parse_hourly` runs inside the `try` block, so both
fetch-level failures and a `ValueError` raised while parsing an hour are
caught and degrade to `[]`. -/
def fetch_hourly (o : FetchOutcome HourlyData) : List HourForecast :=
  match o with
  | .success data => (parse_hourly data).getD []
  | .httpStatusError _ => []
  | .transportError => []
  | .decodeError => []

/-- `WeatherData` dataclass: the immutable bundle assembled once per run.
`raw_current` is the flattened dict built in `fetch_all`; `raw_forecast`
is the raw forecast body. -/
structure WeatherData where
  current : Option CurrentConditions
  forecast : List DayForecast
  hourly_today : List HourForecast
  raw_current : Option (List (String × JVal))
  raw_forecast : ForecastData

/-- The flattened raw-current dict literal built in `fetch_all` when the
current-conditions fetch succeeded, keys in source order. -/
def raw_current_view (c : CurrentConditions) : List (String × JVal) :=
  [("temperature", jnum c.temperature),
   ("feels_like", jnum c.feels_like),
   ("humidity", jint c.humidity),
   ("wind_speed", jnum c.wind_speed),
   ("wind_direction", jstr c.wind_direction_cardinal),
   ("uv_index", jint c.uv_index),
   ("condition", jstr c.condition),
   ("icon_code", jint c.icon_code),
   ("pressure", jnum c.pressure),
   ("visibility", jnum c.visibility)]

/-- `fetch_all`: current (soft-fail to `None`), then forecast (failure
propagates), then hourly (soft-fail to `[]`); the raw-current dict is
materialized exactly when `current is not None`. -/
def fetch_all (co : FetchOutcome CurrentData) (fo : FetchOutcome ForecastData)
    (ho : FetchOutcome HourlyData) : Except FetchError WeatherData :=
  let current := fetch_current co
  match fetch_forecast fo with
  | .error e => .error e
  | .ok (forecast, raw_forecast) =>
    let hourly_today := fetch_hourly ho
    let raw_current := current.map raw_current_view
    .ok { current := current
          forecast := forecast
          hourly_today := hourly_today
          raw_current := raw_current
          raw_forecast := raw_forecast }

/-! ## mqtt.py — condition taxonomy -/

/-- `_WU_TO_HA_CONDITION` (mqtt.py): the fixed mapping from WU icon codes
to HA condition strings, as an insertion-ordered association list. -/
def WU_TO_HA_CONDITION : List (Int × String) :=
  [(0, "tornado"),
   (1, "hurricane"),
   (2, "hurricane"),
   (3, "lightning-rainy"),
   (4, "lightning-rainy"),
   (5, "rainy"),
   (6, "rainy"),
   (7, "snowy"),
   (8, "snowy"),
   (9, "rainy"),
   (10, "rainy"),
   (11, "rainy"),
   (12, "rainy"),
   (13, "snowy"),
   (14, "snowy"),
   (15, "snowy"),
   (16, "snowy"),
   (17, "hail"),
   (18, "snowy"),
   (19, "fog"),
   (20, "fog"),
   (21, "fog"),
   (22, "fog"),
   (23, "windy"),
   (24, "windy"),
   (25, "exceptional"),
   (26, "cloudy"),
   (27, "partlycloudy"),
   (28, "partlycloudy"),
   (29, "partlycloudy"),
   (30, "partlycloudy"),
   (31, "clear-night"),
   (32, "sunny"),
   (33, "clear-night"),
   (34, "sunny"),
   (35, "rainy"),
   (36, "exceptional"),
   (37, "lightning-rainy"),
   (38, "lightning-rainy"),
   (39, "rainy"),
   (40, "pouring"),
   (41, "snowy"),
   (42, "snowy"),
   (43, "snowy"),
   (44, "partlycloudy"),
   (45, "rainy"),
   (46, "snowy"),
   (47, "lightning-rainy")]

/-- `_wu_to_ha_condition(icon_code)`:
`_WU_TO_HA_CONDITION.get(icon_code, "exceptional")` — a `None` key is
never present in the table, so it falls through to the default. -/
def wu_to_ha_condition (icon_code : Option Int) : String :=
  match icon_code with
  | none => "exceptional"
  | some c => (WU_TO_HA_CONDITION.lookup c).getD "exceptional"

/-! ## mqtt.py — publisher

`MQTTPublisher.publish_weather` drives a sequence of broker publishes.
The embedding renders that run as the ordered list of `PublishAction`s it
performs; the broker transport itself is an external collaborator. -/

/-- How a payload is turned into the wire message: `Msg.raw v` is
`str(payload)` (a bare non-JSON string, `raw=True` in `_publish`),
`Msg.json v` is `json.dumps(payload, ensure_ascii=False)`, and
`Msg.lit s` is a string handed to `client.publish` verbatim. -/
inductive Msg where
  | raw (v : JVal)
  | json (v : JVal)
  | lit (s : String)

/-- One call to `client.publish(topic, msg, retain=…, qos=…)` followed by
`result.wait_for_publish(timeout=…)`. -/
structure PublishAction where
  topic : String
  msg : Msg
  retain : Bool
  qos : Nat
  ack_timeout : Nat

/-- The configuration of `MQTTPublisher` relevant to topic/payload
generation (connection parameters are external collaborators). -/
structure MQTTPublisher where
  topic_prefix : String
  retain : Bool
  ha_discovery : Bool
  ha_discovery_prefix : String

/-- `MQTTPublisher._publish(topic, payload, raw=…)`: publishes with the
configured retain flag, `qos=1`, and `wait_for_publish(timeout=10)`. -/
def MQTTPublisher.pub (p : MQTTPublisher) (topic : String) (m : Msg) :
    PublishAction :=
  { topic := topic, msg := m, retain := p.retain, qos := 1, ack_timeout := 10 }

/-- The `sensors` dict literal of `publish_weather`, keys in source order;
a `None` value is skipped by the `if value is not None` test. -/
def current_sensors (c : CurrentConditions) : List (String × Option JVal) :=
  [("temperature", c.temperature.map JVal.num),
   ("feels_like", c.feels_like.map JVal.num),
   ("humidity", c.humidity.map JVal.int),
   ("wind_speed", c.wind_speed.map JVal.num),
   ("wind_direction", c.wind_direction_cardinal.map JVal.str),
   ("pressure", c.pressure.map JVal.num),
   ("visibility", c.visibility.map JVal.num),
   ("uv_index", c.uv_index.map JVal.int),
   ("condition", some (JVal.str (wu_to_ha_condition c.icon_code)))]

/-- The per-metric scalar publishes for the current conditions:
`{prefix}/{key}` with `raw=True`, skipping `None` values. -/
def current_sensor_actions (p : MQTTPublisher) (c : CurrentConditions) :
    List PublishAction :=
  (current_sensors c).filterMap (fun kv =>
    kv.2.map (fun v => p.pub (p.topic_prefix ++ "/" ++ kv.1) (Msg.raw v)))

/-- `dataclasses.asdict(day)`: all `DayForecast` fields, declaration
order, as a JSON object. -/
def day_forecast_asdict (d : DayForecast) : JVal :=
  JVal.obj
    [("day_of_week", JVal.str d.day_of_week),
     ("date", JVal.str d.date),
     ("temp_max", jnum d.temp_max),
     ("temp_min", jnum d.temp_min),
     ("narrative", JVal.str d.narrative),
     ("precip_chance_day", jint d.precip_chance_day),
     ("precip_chance_night", jint d.precip_chance_night),
     ("condition_day", jstr d.condition_day),
     ("condition_night", jstr d.condition_night),
     ("icon_code_day", jint d.icon_code_day),
     ("icon_code_night", jint d.icon_code_night),
     ("humidity_day", jint d.humidity_day),
     ("humidity_night", jint d.humidity_night),
     ("wind_speed_day", jnum d.wind_speed_day),
     ("wind_speed_night", jnum d.wind_speed_night),
     ("wind_direction_day", jstr d.wind_direction_day),
     ("wind_direction_night", jstr d.wind_direction_night),
     ("qpf", jnum d.qpf),
     ("uv_index_day", jint d.uv_index_day)]

/-- Python `f"{h:02d}"`: decimal rendering left-padded with `0` to width
2 (the sign of a negative value counts toward the width). -/
def format_02d (h : Int) : String :=
  let s := toString h
  if s.length ≥ 2 then s else "0" ++ s

/-- The three `raw=True` scalar publishes for one hour, under the
zero-padded hour sub-path; precipitation defaults to `0.0` when `qpf` is
`None`. -/
def hourly_actions (p : MQTTPublisher) (hour : HourForecast) :
    List PublishAction :=
  let h := format_02d hour.hour
  let base := p.topic_prefix ++ "/hourly/" ++ h
  [p.pub (base ++ "/temperature") (Msg.raw (jnum hour.temperature)),
   p.pub (base ++ "/condition")
     (Msg.raw (JVal.str (wu_to_ha_condition hour.icon_code))),
   p.pub (base ++ "/precipitation")
     (Msg.raw (JVal.num (hour.qpf.getD 0)))]

/-- One entry of the `forecast` array of `_build_ha_state`. -/
def ha_forecast_day (d : DayForecast) : JVal :=
  JVal.obj
    [("datetime", JVal.str d.date),
     ("temperature", jnum d.temp_max),
     ("templow", jnum d.temp_min),
     ("condition", JVal.str (wu_to_ha_condition d.icon_code_day)),
     ("precipitation_probability", jint d.precip_chance_day),
     ("precipitation", jnum d.qpf),
     ("wind_speed", jnum d.wind_speed_day),
     ("wind_bearing", jstr d.wind_direction_day),
     ("humidity", jint d.humidity_day)]

/-- `_build_ha_state(data)`: the seven top-level scalar keys are inserted
only when `data.current is not None`; the `forecast` key is always set
afterwards. -/
def build_ha_state (data : WeatherData) : JVal :=
  JVal.obj
    ((match data.current with
      | none => []
      | some c =>
        [("temperature", jnum c.temperature),
         ("humidity", jint c.humidity),
         ("wind_speed", jnum c.wind_speed),
         ("wind_bearing", jstr c.wind_direction_cardinal),
         ("pressure", jnum c.pressure),
         ("visibility", jnum c.visibility),
         ("condition", JVal.str (wu_to_ha_condition c.icon_code))])
     ++ [("forecast", JVal.arr (data.forecast.map ha_forecast_day))])

/-! ### Home Assistant discovery -/

/-- The `device` dict shared by every discovery document in a run. -/
def discovery_device : JVal :=
  JVal.obj
    [("identifiers", JVal.arr [JVal.str "wu_mqtt_bridge"]),
     ("name", JVal.str "Weather Underground"),
     ("model", JVal.str "wu-mqtt-bridge"),
     ("manufacturer", JVal.str "wu-mqtt-bridge")]

/-- One entry of the `sensors` descriptor list of
`_publish_ha_sensor_discovery`. -/
structure SensorDescr where
  key : String
  name : String
  device_class : Option String
  unit : Option String
  icon : Option String

/-- The 9 fixed current-condition sensor descriptors, source order. -/
def discovery_sensors : List SensorDescr :=
  [⟨"temperature", "Température", some "temperature", some "°C", none⟩,
   ⟨"feels_like", "Température ressentie", some "temperature", some "°C",
     none⟩,
   ⟨"humidity", "Humidité", some "humidity", some "%", none⟩,
   ⟨"wind_speed", "Vent", some "wind_speed", some "km/h", none⟩,
   ⟨"wind_direction", "Direction du vent", none, none,
     some "mdi:compass-outline"⟩,
   ⟨"pressure", "Pression", some "atmospheric_pressure", some "hPa", none⟩,
   ⟨"visibility", "Visibilité", some "distance", some "km", none⟩,
   ⟨"uv_index", "Indice UV", none, none, some "mdi:sun-wireless-outline"⟩,
   ⟨"condition", "Condition", none, none,
     some "mdi:weather-partly-cloudy"⟩]

/-- Python truthiness of a `str | None` descriptor value: `None` and the
empty string are falsy. -/
def truthy_str (o : Option String) : Bool :=
  match o with
  | none => false
  | some s => !s.isEmpty

/-- The `config` dict built for one fixed sensor descriptor: five base
keys, then `device_class` / `unit_of_measurement`+`state_class` / `icon`
appended when truthy. -/
def sensor_config (p : MQTTPublisher) (s : SensorDescr) : JVal :=
  JVal.obj
    ([("name", JVal.str s.name),
      ("unique_id", JVal.str ("wu_mqtt_bridge_" ++ s.key)),
      ("object_id", JVal.str ("wu_" ++ s.key)),
      ("state_topic", JVal.str (p.topic_prefix ++ "/" ++ s.key)),
      ("device", discovery_device)]
     ++ (if truthy_str s.device_class
         then [("device_class", jstr s.device_class)] else [])
     ++ (if truthy_str s.unit
         then [("unit_of_measurement", jstr s.unit),
               ("state_class", JVal.str "measurement")] else [])
     ++ (if truthy_str s.icon then [("icon", jstr s.icon)] else []))

/-- One entry of the `hourly_sensors` descriptor list (extra explicit
`state_topic`). -/
structure HourlySensorDescr where
  key : String
  name : String
  topic : String
  device_class : Option String
  unit : Option String
  icon : Option String

/-- The three per-hour sensor descriptors for zero-padded hour label `h`,
source order. -/
def hourly_sensor_descrs (p : MQTTPublisher) (h : String) :
    List HourlySensorDescr :=
  [⟨"hourly_" ++ h ++ "_temperature", "Température " ++ h ++ "h",
     p.topic_prefix ++ "/hourly/" ++ h ++ "/temperature",
     some "temperature", some "°C", none⟩,
   ⟨"hourly_" ++ h ++ "_condition", "Condition " ++ h ++ "h",
     p.topic_prefix ++ "/hourly/" ++ h ++ "/condition",
     none, none, some "mdi:weather-partly-cloudy"⟩,
   ⟨"hourly_" ++ h ++ "_precipitation", "Précipitations " ++ h ++ "h",
     p.topic_prefix ++ "/hourly/" ++ h ++ "/precipitation",
     some "precipitation", some "mm", none⟩]

/-- The `hourly_cfg` dict built for one per-hour sensor descriptor. -/
def hourly_sensor_config (s : HourlySensorDescr) : JVal :=
  JVal.obj
    ([("name", JVal.str s.name),
      ("unique_id", JVal.str ("wu_mqtt_bridge_" ++ s.key)),
      ("object_id", JVal.str ("wu_" ++ s.key)),
      ("state_topic", JVal.str s.topic),
      ("device", discovery_device)]
     ++ (if truthy_str s.device_class
         then [("device_class", jstr s.device_class)] else [])
     ++ (if truthy_str s.unit
         then [("unit_of_measurement", jstr s.unit),
               ("state_class", JVal.str "measurement")] else [])
     ++ (if truthy_str s.icon then [("icon", jstr s.icon)] else []))

/-- The first discovery loop of `_publish_ha_sensor_discovery`: one
document per fixed current-condition sensor descriptor, published with
hard-coded `retain=True, qos=1` and a 10 s acknowledgment wait. -/
def fixed_sensor_doc_actions (p : MQTTPublisher) : List PublishAction :=
  discovery_sensors.map (fun s =>
    { topic := p.ha_discovery_prefix ++ "/sensor/wu_mqtt_bridge/"
        ++ s.key ++ "/config"
      msg := Msg.json (sensor_config p s)
      retain := true, qos := 1, ack_timeout := 10 })

/-- The second discovery loop: three documents per hour of
`hourly_today`, same hard-coded publish options. -/
def hourly_sensor_doc_actions (p : MQTTPublisher) (data : WeatherData) :
    List PublishAction :=
  data.hourly_today.flatMap (fun hour =>
    (hourly_sensor_descrs p (format_02d hour.hour)).map (fun s =>
      { topic := p.ha_discovery_prefix ++ "/sensor/wu_mqtt_bridge/"
          ++ s.key ++ "/config"
        msg := Msg.json (hourly_sensor_config s)
        retain := true, qos := 1, ack_timeout := 10 }))

/-- The final cleanup publish of `_publish_ha_sensor_discovery`: an empty
retained payload to the legacy aggregate-weather discovery topic. -/
def legacy_cleanup_action (p : MQTTPublisher) : PublishAction :=
  { topic := p.ha_discovery_prefix ++ "/weather/wu_mqtt_bridge/config"
    msg := Msg.lit ""
    retain := true, qos := 1, ack_timeout := 10 }

/-- `_publish_ha_sensor_discovery(data)`: the 9 fixed sensor documents,
then 3 documents per hour of `hourly_today`, then the legacy cleanup. -/
def ha_sensor_discovery_actions (p : MQTTPublisher) (data : WeatherData) :
    List PublishAction :=
  fixed_sensor_doc_actions p
  ++ hourly_sensor_doc_actions p data
  ++ [legacy_cleanup_action p]

/-- The data publishes of `publish_weather(data)` (everything after the
optional discovery step): per-metric current scalars (when current is
present, skipping `None`), the raw current object (when available), the
forecast array, per-hour scalars, and the aggregate HA state. -/
def data_actions (p : MQTTPublisher) (data : WeatherData) :
    List PublishAction :=
  (match data.current with
   | none => []
   | some c => current_sensor_actions p c)
  ++ (match data.raw_current with
      | none => []
      | some raw =>
        [p.pub (p.topic_prefix ++ "/current") (Msg.json (JVal.obj raw))])
  ++ [p.pub (p.topic_prefix ++ "/forecast")
        (Msg.json (JVal.arr (data.forecast.map day_forecast_asdict)))]
  ++ data.hourly_today.flatMap (fun hour => hourly_actions p hour)
  ++ [p.pub (p.topic_prefix ++ "/ha_state")
        (Msg.json (build_ha_state data))]

/-- `publish_weather(data)` as the ordered list of publishes it performs:
discovery (when enabled) followed by the data publishes. -/
def publish_weather (p : MQTTPublisher) (data : WeatherData) :
    List PublishAction :=
  (if p.ha_discovery then ha_sensor_discovery_actions p data else [])
  ++ data_actions p data

/-! ## JSON string serialization

`_publish` and the discovery publishes serialize every JSON payload with
`json.dumps(payload, ensure_ascii=False)`.  The part of that serializer
that acts on string values is modelled here: with `ensure_ascii=False`,
CPython escapes only `"`, `\` and control characters below U+0020 (the
latter as `\b \f \n \r \t` or `\u00XX`); every other character — in
particular all non-ASCII text — is emitted verbatim. -/

/-- Lowercase hex digit character for a value below 16. -/
def hex_digit (n : Nat) : Char :=
  if n = 0 then '0' else if n = 1 then '1' else if n = 2 then '2'
  else if n = 3 then '3' else if n = 4 then '4' else if n = 5 then '5'
  else if n = 6 then '6' else if n = 7 then '7' else if n = 8 then '8'
  else if n = 9 then '9' else if n = 10 then 'a' else if n = 11 then 'b'
  else if n = 12 then 'c' else if n = 13 then 'd' else if n = 14 then 'e'
  else 'f'

/-- Value of a hex digit character (JSON `\uXXXX` escapes; both cases). -/
def hex_val (c : Char) : Option Nat :=
  if '0' ≤ c ∧ c ≤ '9' then some (c.toNat - 48)
  else if 'a' ≤ c ∧ c ≤ 'f' then some (c.toNat - 87)
  else if 'A' ≤ c ∧ c ≤ 'F' then some (c.toNat - 55)
  else none

/-- The escape sequence `json.dumps(…, ensure_ascii=False)` emits for one
character of a string value (CPython `py_encode_basestring`). -/
def json_escape_char (c : Char) : List Char :=
  if c = '"' then ['\\', '"']
  else if c = '\\' then ['\\', '\\']
  else if c = '\n' then ['\\', 'n']
  else if c = '\r' then ['\\', 'r']
  else if c = '\t' then ['\\', 't']
  else if c.toNat = 8 then ['\\', 'b']
  else if c.toNat = 12 then ['\\', 'f']
  else if c.toNat < 32 then
    ['\\', 'u', '0', '0', hex_digit (c.toNat / 16), hex_digit (c.toNat % 16)]
  else [c]

/-- The serialization of one string value inside a payload emitted by
`_publish`: quote, per-character escapes, quote. -/
def json_dumps_string (s : String) : String :=
  ⟨'"' :: (s.data.flatMap json_escape_char ++ ['"'])⟩

/-- JSON string-literal body parser (as `json.loads` reads one string):
consumes characters up to an unescaped closing quote, decoding escape
sequences, and returns the decoded content with the rest of the input. -/
def json_string_body : List Char → Option (List Char × List Char)
  | [] => none
  | c :: rest =>
    if c = '"' then some ([], rest)
    else if c = '\\' then
      match rest with
      | [] => none
      | e :: t =>
        if e = '"' then
          (json_string_body t).map (fun p => ('"' :: p.1, p.2))
        else if e = '\\' then
          (json_string_body t).map (fun p => ('\\' :: p.1, p.2))
        else if e = '/' then
          (json_string_body t).map (fun p => ('/' :: p.1, p.2))
        else if e = 'b' then
          (json_string_body t).map (fun p => (Char.ofNat 8 :: p.1, p.2))
        else if e = 'f' then
          (json_string_body t).map (fun p => (Char.ofNat 12 :: p.1, p.2))
        else if e = 'n' then
          (json_string_body t).map (fun p => ('\n' :: p.1, p.2))
        else if e = 'r' then
          (json_string_body t).map (fun p => ('\r' :: p.1, p.2))
        else if e = 't' then
          (json_string_body t).map (fun p => ('\t' :: p.1, p.2))
        else if e = 'u' then
          match t with
          | h1 :: h2 :: h3 :: h4 :: t2 =>
            match hex_val h1, hex_val h2, hex_val h3, hex_val h4 with
            | some a, some b, some v3, some v4 =>
              (json_string_body t2).map (fun p =>
                (Char.ofNat (((a * 16 + b) * 16 + v3) * 16 + v4) :: p.1,
                 p.2))
            | _, _, _, _ => none
          | _ => none
        else none
    else (json_string_body rest).map (fun p => (c :: p.1, p.2))

/-- Parse a complete JSON string literal; fails unless the whole input is
exactly one string literal. -/
def json_parse_string (s : String) : Option String :=
  match s.data with
  | '"' :: rest =>
    (json_string_body rest).bind (fun p =>
      if p.2 = [] then some (String.mk p.1) else none)
  | _ => none

/-! ## Helper lemmas -/

theorem safe_idx_eq_getElem? {α : Type} (l : List α) (i : Nat) :
    safe_idx l i = l[i]? := by
  unfold safe_idx
  split
  · rfl
  · exact (List.getElem?_eq_none (by omega)).symm

theorem lookup_eq_none_of_forall {β : Type} (l : List (Int × β)) (k : Int)
    (h : ∀ p ∈ l, p.1 ≠ k) : l.lookup k = none := by
  induction l with
  | nil => rfl
  | cons p t ih =>
    obtain ⟨a, b⟩ := p
    have ha : a ≠ k := h (a, b) (List.mem_cons_self _ _)
    simp only [List.lookup]
    cases hbeq : k == a with
    | true => exact absurd (beq_iff_eq.mp hbeq).symm ha
    | false => exact ih (fun q hq => h q (List.mem_cons_of_mem _ hq))

theorem mem_assoc_unique {α β : Type} :
    ∀ (l : List (α × β)), (l.map Prod.fst).Nodup →
      ∀ {k : α} {v1 v2 : β}, (k, v1) ∈ l → (k, v2) ∈ l → v1 = v2 := by
  intro l
  induction l with
  | nil => intro _ k v1 v2 h; cases h
  | cons p t ih =>
    obtain ⟨a, b⟩ := p
    intro hnd k v1 v2 h1 h2
    rw [List.map_cons, List.nodup_cons] at hnd
    rcases List.mem_cons.mp h1 with e1 | m1
    · rcases List.mem_cons.mp h2 with e2 | m2
      · injection e2.trans e1.symm with hk hv
        exact hv.symm
      · exfalso
        apply hnd.1
        injection e1 with hk hv
        rw [← hk]
        exact List.mem_map.mpr ⟨(k, v2), m2, rfl⟩
    · rcases List.mem_cons.mp h2 with e2 | m2
      · exfalso
        apply hnd.1
        injection e2 with hk hv
        rw [← hk]
        exact List.mem_map.mpr ⟨(k, v1), m1, rfl⟩
      · exact ih hnd.2 m1 m2

theorem lookup_eq_some_of_mem {β : Type} :
    ∀ (l : List (Int × β)), (l.map Prod.fst).Nodup →
      ∀ {k : Int} {v : β}, (k, v) ∈ l → l.lookup k = some v := by
  intro l
  induction l with
  | nil => intro _ k v h; cases h
  | cons p t ih =>
    obtain ⟨a, b⟩ := p
    intro hnd k v hm
    rw [List.map_cons, List.nodup_cons] at hnd
    rcases List.mem_cons.mp hm with e | m
    · injection e with hk hv
      subst hk
      subst hv
      simp [List.lookup]
    · have ha : (k == a) = false := by
        rw [beq_eq_false_iff_ne]
        intro e2
        apply hnd.1
        rw [← e2]
        exact List.mem_map.mpr ⟨(k, v), m, rfl⟩
      simp only [List.lookup, ha]
      exact ih hnd.2 m

theorem mem_of_lookup_eq_some {β : Type} :
    ∀ (l : List (Int × β)) {k : Int} {v : β},
      l.lookup k = some v → (k, v) ∈ l := by
  intro l
  induction l with
  | nil => intro k v h; cases h
  | cons p t ih =>
    obtain ⟨a, b⟩ := p
    intro k v h
    simp only [List.lookup] at h
    cases hbeq : k == a with
    | true =>
      rw [hbeq] at h
      have hb : b = v := by simpa using h
      have hk : k = a := beq_iff_eq.mp hbeq
      rw [hk, ← hb]
      exact List.mem_cons_self _ _
    | false =>
      rw [hbeq] at h
      exact List.mem_cons_of_mem _ (ih (by simpa using h))

/-! ## C4 — condition taxonomy mapper -/

/-- C4: the condition taxonomy mapper is a total function: `None` maps to
`"exceptional"`; codes 1 and 2 map to `"hurricane"` and code 30 to
`"partlycloudy"`; every code in the table's domain 0–47 maps to exactly
the string the table documents for it; and every integer outside 0–47
maps to `"exceptional"`.  (It cannot raise: it is a total Lean
function.) -/
theorem wu_to_ha_condition_total :
    wu_to_ha_condition none = "exceptional" ∧
    wu_to_ha_condition (some 1) = "hurricane" ∧
    wu_to_ha_condition (some 2) = "hurricane" ∧
    wu_to_ha_condition (some 30) = "partlycloudy" ∧
    (∀ c : Int, 0 ≤ c → c ≤ 47 →
      ∃ s, (c, s) ∈ WU_TO_HA_CONDITION ∧ wu_to_ha_condition (some c) = s) ∧
    (∀ c s, (c, s) ∈ WU_TO_HA_CONDITION → wu_to_ha_condition (some c) = s) ∧
    (∀ c : Int, c < 0 ∨ 47 < c → wu_to_ha_condition (some c) = "exceptional") := by
  have hnd : (WU_TO_HA_CONDITION.map Prod.fst).Nodup := by decide
  have hmem : ∀ c s, (c, s) ∈ WU_TO_HA_CONDITION →
      wu_to_ha_condition (some c) = s := by
    intro c s hm
    have := lookup_eq_some_of_mem WU_TO_HA_CONDITION hnd hm
    simp [wu_to_ha_condition, this]
  refine ⟨rfl, rfl, rfl, rfl, ?_, hmem, ?_⟩
  · have hnat : ∀ n : Nat, n < 48 →
        (WU_TO_HA_CONDITION.lookup ((n : Nat) : Int)).isSome = true := by
      decide
    intro c h0 h47
    have hs := hnat c.toNat (by omega)
    rw [Int.toNat_of_nonneg h0] at hs
    obtain ⟨s, hs⟩ := Option.isSome_iff_exists.mp hs
    have hm := mem_of_lookup_eq_some WU_TO_HA_CONDITION hs
    exact ⟨s, hm, hmem c s hm⟩
  · intro c hc
    have hbound : ∀ p ∈ WU_TO_HA_CONDITION, 0 ≤ p.1 ∧ p.1 ≤ 47 := by decide
    have : WU_TO_HA_CONDITION.lookup c = none := by
      apply lookup_eq_none_of_forall
      intro p hp
      have := hbound p hp
      omega
    simp [wu_to_ha_condition, this]

/-- Witness for C4 at concrete inputs: code 5 is in the table's domain,
and codes 48 and -1 fall through to the sentinel. -/
theorem wu_to_ha_condition_total_witness :
    (∃ s, ((5 : Int), s) ∈ WU_TO_HA_CONDITION ∧
      wu_to_ha_condition (some 5) = s) ∧
    wu_to_ha_condition (some 48) = "exceptional" ∧
    wu_to_ha_condition (some (-1)) = "exceptional" :=
  ⟨wu_to_ha_condition_total.2.2.2.2.1 5 (by decide) (by decide),
   wu_to_ha_condition_total.2.2.2.2.2.2 48 (by decide),
   wu_to_ha_condition_total.2.2.2.2.2.2 (-1) (by decide)⟩

/-! ## C1 — daily-forecast decoder -/

/-- C1: decoding a daily forecast yields exactly one `DayForecast` per
`dayOfWeek` entry, in source order (an empty `dayOfWeek` yields `[]`, not
an error); for each index `i` the record's `date` is the first 10
characters of `validTimeLocal[i]` (`""` out of bounds); each other
top-level scalar field is taken at index `i` and degrades to its absent
value out of bounds (`none`; for the non-nullable `narrative`, `""`);
each daypart-nested field is taken at flattened index `2i` (day) or
`2i + 1` (night) with the same rule; and an absent or empty `daypart`
array leaves every daypart-derived field absent for all days. -/
theorem parse_forecast_spec (data : ForecastData) :
    (parse_forecast data).length = data.dayOfWeek.length ∧
    (data.dayOfWeek = [] → parse_forecast data = []) ∧
    (∀ i : Nat, (hi : i < data.dayOfWeek.length) →
      (parse_forecast data)[i]? = some
        { day_of_week := data.dayOfWeek[i]
          date := match data.validTimeLocal[i]? with
            | some t => t.take 10
            | none => ""
          temp_max := data.calendarDayTemperatureMax[i]?
          temp_min := data.calendarDayTemperatureMin[i]?
          narrative := (data.narrative[i]?).getD ""
          precip_chance_day := (daypart0 data).precipChance[2 * i]?
          precip_chance_night := (daypart0 data).precipChance[2 * i + 1]?
          condition_day := (daypart0 data).wxPhraseLong[2 * i]?
          condition_night := (daypart0 data).wxPhraseLong[2 * i + 1]?
          icon_code_day := (daypart0 data).iconCode[2 * i]?
          icon_code_night := (daypart0 data).iconCode[2 * i + 1]?
          humidity_day := (daypart0 data).relativeHumidity[2 * i]?
          humidity_night := (daypart0 data).relativeHumidity[2 * i + 1]?
          wind_speed_day := (daypart0 data).windSpeed[2 * i]?
          wind_speed_night := (daypart0 data).windSpeed[2 * i + 1]?
          wind_direction_day := (daypart0 data).windDirectionCardinal[2 * i]?
          wind_direction_night :=
            (daypart0 data).windDirectionCardinal[2 * i + 1]?
          qpf := data.qpf[i]?
          uv_index_day := (daypart0 data).uvIndex[2 * i]? }) ∧
    (data.daypart = [] → ∀ d ∈ parse_forecast data,
      d.precip_chance_day = none ∧ d.precip_chance_night = none ∧
      d.condition_day = none ∧ d.condition_night = none ∧
      d.icon_code_day = none ∧ d.icon_code_night = none ∧
      d.humidity_day = none ∧ d.humidity_night = none ∧
      d.wind_speed_day = none ∧ d.wind_speed_night = none ∧
      d.wind_direction_day = none ∧ d.wind_direction_night = none ∧
      d.uv_index_day = none) := by
  refine ⟨?_, ?_, ?_, ?_⟩
  · simp [parse_forecast]
  · intro h
    simp [parse_forecast, h]
  · intro i hi
    unfold parse_forecast
    rw [List.getElem?_map, List.getElem?_enum,
      List.getElem?_eq_getElem hi]
    simp only [Option.map_some']
    congr 1
    simp [safe_idx_eq_getElem?, Nat.mul_comm]
  · intro h d hd
    have hdp : daypart0 data = Daypart.empty := by simp [daypart0, h]
    unfold parse_forecast at hd
    rw [List.mem_map] at hd
    obtain ⟨p, hp, rfl⟩ := hd
    simp [hdp, safe_idx, Daypart.empty]

/-- The daily-forecast input of the end-to-end example in the spec (one
day, no `daypart` key). -/
def forecast_example : ForecastData :=
  { dayOfWeek := ["Monday"]
    validTimeLocal := ["2026-02-03T07:00:00+0100"]
    calendarDayTemperatureMax := [14]
    calendarDayTemperatureMin := [6]
    narrative := ["Partly cloudy."]
    qpf := [2]
    daypart := [] }

/-- Witness for C1: the record decoded from `forecast_example` at index
0, with every field evaluated. -/
theorem parse_forecast_spec_witness :
    (parse_forecast forecast_example)[0]? = some
      { day_of_week := "Monday"
        date := "2026-02-03"
        temp_max := some 14
        temp_min := some 6
        narrative := "Partly cloudy."
        precip_chance_day := none
        precip_chance_night := none
        condition_day := none
        condition_night := none
        icon_code_day := none
        icon_code_night := none
        humidity_day := none
        humidity_night := none
        wind_speed_day := none
        wind_speed_night := none
        wind_direction_day := none
        wind_direction_night := none
        qpf := some 2
        uv_index_day := none } := by
  have h := (parse_forecast_spec forecast_example).2.2.1 0 (by decide)
  rw [h]
  decide

/-! ## C2 — hourly decoder -/

/-- The per-entry relation of the hourly decoder: the emitted record
carries the entry's timestamp, the hour parsed from its characters 11–12,
and the parallel arrays indexed at the entry's original source index with
absent on out-of-bounds. -/
def hour_entry_rel (data : HourlyData) (p : Nat × String)
    (h : HourForecast) : Prop :=
  h.time_local = p.2 ∧
  hour_of p.2 = some h.hour ∧
  h.temperature = data.temperature[p.1]? ∧
  h.condition = data.wxPhraseLong[p.1]? ∧
  h.icon_code = data.iconCode[p.1]? ∧
  h.qpf = data.qpf[p.1]?

theorem parse_hourly_go_sound (data : HourlyData) (today : String) :
    ∀ (l : List (Nat × String)) (hs : List HourForecast),
      parse_hourly_go data today l = some hs →
      List.Forall₂ (hour_entry_rel data)
        (l.filter (fun p => p.2.take 10 = today)) hs := by
  intro l
  induction l with
  | nil =>
    intro hs h
    simp only [parse_hourly_go] at h
    injection h with h
    subst h
    exact List.Forall₂.nil
  | cons p rest ih =>
    obtain ⟨i, ts⟩ := p
    intro hs h
    simp only [parse_hourly_go] at h
    by_cases hts : ts.take 10 = today
    · rw [if_neg (by simpa using hts)] at h
      cases hh : hour_of ts with
      | none => rw [hh] at h; cases h
      | some hr =>
        rw [hh] at h
        rw [Option.map_eq_some'] at h
        obtain ⟨hs0, hgo, rfl⟩ := h
        rw [List.filter_cons_of_pos (by simpa using hts)]
        refine List.Forall₂.cons ?_ (ih hs0 hgo)
        exact ⟨rfl, hh, safe_idx_eq_getElem? .., safe_idx_eq_getElem? ..,
          safe_idx_eq_getElem? .., safe_idx_eq_getElem? ..⟩
    · rw [if_pos (by simpa using hts)] at h
      rw [List.filter_cons_of_neg (by simpa using hts)]
      exact ih hs h

/-- C2: for every hourly input, an empty `validTimeLocal` decodes to the
empty sequence; otherwise, whenever decoding succeeds, the output pairs
one-to-one and in source order with exactly those entries whose
timestamp's first 10 characters equal the first entry's first 10
characters (no reordering or deduplication), each emitted record carrying
the hour parsed from characters 11–12 of its timestamp and the other
fields indexed at the entry's original source index with absent on
out-of-bounds. -/
theorem parse_hourly_spec (data : HourlyData) :
    (data.validTimeLocal = [] → parse_hourly data = some []) ∧
    (∀ t0 rest hs, data.validTimeLocal = t0 :: rest →
      parse_hourly data = some hs →
      List.Forall₂ (hour_entry_rel data)
        (data.validTimeLocal.enum.filter
          (fun p => p.2.take 10 = t0.take 10)) hs) := by
  constructor
  · intro h
    simp [parse_hourly, h]
  · intro t0 rest hs hv h
    simp only [parse_hourly, hv] at h
    rw [hv]
    exact parse_hourly_go_sound data (t0.take 10) _ hs h

/-- An hourly input whose third entry falls on the next day and whose
trailing arrays are shorter than `validTimeLocal`. -/
def hourly_example : HourlyData :=
  { validTimeLocal := ["2026-02-03T22:00:00+0100", "2026-02-03T23:00:00+0100",
      "2026-02-04T00:00:00+0100"]
    temperature := [10, 9]
    wxPhraseLong := ["Nuageux"]
    iconCode := [26]
    qpf := [0] }

/-- Witness for C2: the empty input decodes to `some []`, and on
`hourly_example` the decoder keeps exactly the two first-day entries,
parsing hours 22 and 23 and indexing the short arrays at the original
positions. -/
theorem parse_hourly_spec_witness :
    parse_hourly ⟨[], [], [], [], []⟩ = some [] ∧
    List.Forall₂ (hour_entry_rel hourly_example)
      [(0, "2026-02-03T22:00:00+0100"), (1, "2026-02-03T23:00:00+0100")]
      [{ time_local := "2026-02-03T22:00:00+0100", hour := 22,
         temperature := some 10, condition := some "Nuageux",
         icon_code := some 26, qpf := some 0 },
       { time_local := "2026-02-03T23:00:00+0100", hour := 23,
         temperature := some 9, condition := none,
         icon_code := none, qpf := none }] := by
  refine ⟨(parse_hourly_spec ⟨[], [], [], [], []⟩).1 rfl, ?_⟩
  have h := (parse_hourly_spec hourly_example).2 "2026-02-03T22:00:00+0100"
    ["2026-02-03T23:00:00+0100", "2026-02-04T00:00:00+0100"]
    [{ time_local := "2026-02-03T22:00:00+0100", hour := 22,
       temperature := some 10, condition := some "Nuageux",
       icon_code := some 26, qpf := some 0 },
     { time_local := "2026-02-03T23:00:00+0100", hour := 23,
       temperature := some 9, condition := none,
       icon_code := none, qpf := none }] rfl (by decide)
  have hf : hourly_example.validTimeLocal.enum.filter
      (fun p => p.2.take 10 = "2026-02-03T22:00:00+0100".take 10)
      = [(0, "2026-02-03T22:00:00+0100"), (1, "2026-02-03T23:00:00+0100")] := by
    decide
  rw [hf] at h
  exact h

/-! ## C3 — per-fetch error policies -/

/-- C3: the three fetches follow distinct error policies.  On any
fetch-level failure (non-2xx status, transport fault, or decode failure):
the current-conditions fetch returns absent and never raises; the hourly
fetch degrades to the empty sequence and never aborts the run; the
daily-forecast fetch propagates an exception, and `fetch_all` then
aborts with that error, producing no `WeatherData` (hence nothing to
publish). -/
theorem fetch_error_policies :
    (∀ o : FetchOutcome CurrentData,
      (∀ b, o ≠ FetchOutcome.success b) → fetch_current o = none) ∧
    (∀ o : FetchOutcome HourlyData,
      (∀ b, o ≠ FetchOutcome.success b) → fetch_hourly o = []) ∧
    (∀ o : FetchOutcome ForecastData,
      (∀ b, o ≠ FetchOutcome.success b) →
        ∃ e, fetch_forecast o = Except.error e) ∧
    (∀ (co : FetchOutcome CurrentData) (fo : FetchOutcome ForecastData)
       (ho : FetchOutcome HourlyData),
      (∀ b, fo ≠ FetchOutcome.success b) →
        ∃ e, fetch_all co fo ho = Except.error e) := by
  have hf : ∀ o : FetchOutcome ForecastData,
      (∀ b, o ≠ FetchOutcome.success b) →
        ∃ e, fetch_forecast o = Except.error e := by
    intro o h
    cases o with
    | success b => exact absurd rfl (h b)
    | httpStatusError s => exact ⟨FetchError.httpStatus s, rfl⟩
    | transportError => exact ⟨FetchError.transport, rfl⟩
    | decodeError => exact ⟨FetchError.decode, rfl⟩
  refine ⟨?_, ?_, hf, ?_⟩
  · intro o h
    cases o with
    | success b => exact absurd rfl (h b)
    | httpStatusError s => rfl
    | transportError => rfl
    | decodeError => rfl
  · intro o h
    cases o with
    | success b => exact absurd rfl (h b)
    | httpStatusError s => rfl
    | transportError => rfl
    | decodeError => rfl
  · intro co fo ho h
    obtain ⟨e, he⟩ := hf fo h
    refine ⟨e, ?_⟩
    unfold fetch_all
    rw [he]

/-- Witness for C3: a 403 on current conditions yields absent, a
transport fault on hourly yields `[]`, and a 500 on the daily forecast
propagates and makes the whole fetch abort. -/
theorem fetch_error_policies_witness :
    fetch_current (FetchOutcome.httpStatusError 403) = none ∧
    fetch_hourly (FetchOutcome.transportError : FetchOutcome HourlyData)
      = [] ∧
    (∃ e, fetch_forecast (FetchOutcome.httpStatusError 500)
      = Except.error e) ∧
    (∃ e, fetch_all (FetchOutcome.httpStatusError 403)
      (FetchOutcome.httpStatusError 500) FetchOutcome.transportError
      = Except.error e) :=
  ⟨fetch_error_policies.1 _ (by intro b h; cases h),
   fetch_error_policies.2.1 _ (by intro b h; cases h),
   fetch_error_policies.2.2.1 _ (by intro b h; cases h),
   fetch_error_policies.2.2.2 _ _ _ (by intro b h; cases h)⟩

/-! ## String/topic helper lemmas -/

theorem string_data_inj {b c : String} (h : b.data = c.data) : b = c := by
  cases b
  cases c
  exact congrArg String.mk h

theorem string_append_cancel (a : String) {b c : String}
    (h : a ++ b = a ++ c) : b = c := by
  have hd := congrArg String.data h
  rw [String.data_append, String.data_append] at hd
  exact string_data_inj (List.append_cancel_left hd)

theorem string_append_ne (a : String) {b c : String} (h : b ≠ c) :
    a ++ b ≠ a ++ c :=
  fun e => h (string_append_cancel a e)

/-- The last character of a string, if any. -/
def last_char (s : String) : Option Char := s.data.getLast?

theorem last_char_append (a b : String) (h : b.data ≠ []) :
    last_char (a ++ b) = last_char b := by
  unfold last_char
  rw [String.data_append, List.getLast?_append]
  cases hb : b.data.getLast? with
  | none =>
    rw [List.getLast?_eq_none_iff] at hb
    exact absurd hb h
  | some v => rfl

theorem ne_of_last_char {s t : String} (h : last_char s ≠ last_char t) :
    s ≠ t :=
  fun e => h (by rw [e])

theorem ne_of_data_getElem? {s t : String} (n : Nat)
    (h : s.data[n]? ≠ t.data[n]?) : s ≠ t :=
  fun e => h (by rw [e])

theorem hourly_ne_slash (rest x : String) (n : Nat) (hn : n < 8)
    (h : ("/hourly/".data)[n]? ≠ ("/" ++ x).data[n]?) :
    "/hourly/" ++ rest ≠ "/" ++ x := by
  apply ne_of_data_getElem? n
  rw [String.data_append, List.getElem?_append]
  have hlen : ("/hourly/".data).length = 8 := by decide
  rw [hlen, if_pos hn]
  exact h

/-- Every action of `hourly_actions` lives under the hourly sub-path. -/
theorem hourly_actions_topic (p : MQTTPublisher) (hour : HourForecast) :
    ∀ a ∈ hourly_actions p hour,
      ∃ rest, a.topic = p.topic_prefix ++ ("/hourly/" ++ rest) := by
  intro a ha
  simp only [hourly_actions, List.mem_cons, List.mem_singleton] at ha
  rcases ha with rfl | rfl | rfl | h
  · exact ⟨format_02d hour.hour ++ "/temperature", by
      simp [MQTTPublisher.pub, String.append_assoc]⟩
  · exact ⟨format_02d hour.hour ++ "/condition", by
      simp [MQTTPublisher.pub, String.append_assoc]⟩
  · exact ⟨format_02d hour.hour ++ "/precipitation", by
      simp [MQTTPublisher.pub, String.append_assoc]⟩
  · cases h

/-- Every discovery publish's topic ends in the character `g` (the
sensor documents and the legacy cleanup all end in `…/config`). -/
theorem ha_discovery_topic_last_char (p : MQTTPublisher)
    (wd : WeatherData) :
    ∀ a ∈ ha_sensor_discovery_actions p wd,
      last_char a.topic = some 'g' := by
  intro a ha
  simp only [ha_sensor_discovery_actions, List.mem_append,
    fixed_sensor_doc_actions, hourly_sensor_doc_actions, List.mem_map,
    List.mem_flatMap, List.mem_singleton] at ha
  rcases ha with (⟨s, hsm, rfl⟩ | ⟨hour, hhm, s, hsm, rfl⟩) | rfl
  · rw [last_char_append _ "/config" (by decide)]
    decide
  · rw [last_char_append _ "/config" (by decide)]
    decide
  · show last_char (p.ha_discovery_prefix ++ "/weather/wu_mqtt_bridge/config")
      = some 'g'
    rw [last_char_append _ _ (by decide)]
    decide

/-! ## C10 — retain / QoS policy -/

/-- C10: every discovery-document publish and the legacy cleanup publish
hard-code `retain=True` regardless of the configured retain option; every
data-topic publish uses the configured retain flag; and every publish in
a run uses QoS 1 with a bounded 10-second acknowledgment wait. -/
theorem publish_retain_qos_policy (p : MQTTPublisher) (wd : WeatherData) :
    (∀ a ∈ ha_sensor_discovery_actions p wd,
      a.retain = true ∧ a.qos = 1 ∧ a.ack_timeout = 10) ∧
    (∀ a ∈ data_actions p wd,
      a.retain = p.retain ∧ a.qos = 1 ∧ a.ack_timeout = 10) ∧
    (∀ a ∈ publish_weather p wd, a.qos = 1 ∧ a.ack_timeout = 10) := by
  have hdisc : ∀ a ∈ ha_sensor_discovery_actions p wd,
      a.retain = true ∧ a.qos = 1 ∧ a.ack_timeout = 10 := by
    intro a ha
    simp only [ha_sensor_discovery_actions, List.mem_append,
      fixed_sensor_doc_actions, hourly_sensor_doc_actions, List.mem_map,
      List.mem_flatMap, List.mem_singleton] at ha
    rcases ha with (⟨s, _, rfl⟩ | ⟨hour, _, s, _, rfl⟩) | rfl
    · exact ⟨rfl, rfl, rfl⟩
    · exact ⟨rfl, rfl, rfl⟩
    · exact ⟨rfl, rfl, rfl⟩
  have hdata : ∀ a ∈ data_actions p wd,
      a.retain = p.retain ∧ a.qos = 1 ∧ a.ack_timeout = 10 := by
    intro a ha
    simp only [data_actions, List.mem_append] at ha
    rcases ha with (((hc | hr) | hf) | hh) | hs
    · cases hcur : wd.current with
      | none => rw [hcur] at hc; cases hc
      | some c =>
        rw [hcur] at hc
        simp only [current_sensor_actions, List.mem_filterMap] at hc
        obtain ⟨kv, _, hv⟩ := hc
        obtain ⟨v, _, rfl⟩ := Option.map_eq_some'.mp hv
        exact ⟨rfl, rfl, rfl⟩
    · cases hraw : wd.raw_current with
      | none => rw [hraw] at hr; cases hr
      | some raw =>
        rw [hraw] at hr
        have he := List.mem_singleton.mp hr
        subst he
        exact ⟨rfl, rfl, rfl⟩
    · have he := List.mem_singleton.mp hf
      subst he
      exact ⟨rfl, rfl, rfl⟩
    · rw [List.mem_flatMap] at hh
      obtain ⟨hour, _, hm⟩ := hh
      simp only [hourly_actions, List.mem_cons, List.mem_singleton] at hm
      rcases hm with rfl | rfl | rfl | h
      · exact ⟨rfl, rfl, rfl⟩
      · exact ⟨rfl, rfl, rfl⟩
      · exact ⟨rfl, rfl, rfl⟩
      · cases h
    · have he := List.mem_singleton.mp hs
      subst he
      exact ⟨rfl, rfl, rfl⟩
  refine ⟨hdisc, hdata, ?_⟩
  intro a ha
  rw [publish_weather, List.mem_append] at ha
  rcases ha with hd | hdat
  · by_cases hflag : p.ha_discovery
    · rw [if_pos hflag] at hd
      exact ⟨(hdisc a hd).2.1, (hdisc a hd).2.2⟩
    · rw [if_neg hflag] at hd
      cases hd
  · exact ⟨(hdata a hdat).2.1, (hdata a hdat).2.2⟩

/-- A concrete publisher configuration (with `retain=False`, so that the
hard-coded discovery retain flag is observable). -/
def pub_example : MQTTPublisher :=
  { topic_prefix := "weather", retain := false, ha_discovery := true,
    ha_discovery_prefix := "homeassistant" }

/-- The same configuration with discovery disabled and `retain=True`. -/
def pub_plain : MQTTPublisher :=
  { topic_prefix := "weather", retain := true, ha_discovery := false,
    ha_discovery_prefix := "homeassistant" }

/-- A fully populated current observation (icon code 30). -/
def current_example : CurrentConditions :=
  { temperature := some 12, feels_like := some 11, humidity := some 75,
    wind_speed := some 20, wind_direction_cardinal := some "SW",
    uv_index := some 2, condition := some "Partiellement nuageux",
    icon_code := some 30, pressure := some 1015, visibility := some 10 }

/-- A concrete weather bundle with current conditions present, one
forecast day and one hourly entry. -/
def wd_example : WeatherData :=
  { current := some current_example
    forecast := parse_forecast forecast_example
    hourly_today := [⟨"2026-02-03T22:00:00+0100", 22, some 10,
      some "Nuageux", some 26, some 0⟩]
    raw_current := some (raw_current_view current_example)
    raw_forecast := forecast_example }

/-- The same bundle with the current-conditions fetch failed. -/
def wd_nocur : WeatherData :=
  { current := none
    forecast := parse_forecast forecast_example
    hourly_today := [⟨"2026-02-03T22:00:00+0100", 22, some 10,
      some "Nuageux", some 26, some 0⟩]
    raw_current := none
    raw_forecast := forecast_example }

/-- Witness for C10: with `retain=False` configured, the legacy cleanup
publish still retains, while the forecast data publish does not; both use
QoS 1 and the 10 s wait. -/
theorem publish_retain_qos_policy_witness :
    ((legacy_cleanup_action pub_example).retain = true ∧
      (legacy_cleanup_action pub_example).qos = 1 ∧
      (legacy_cleanup_action pub_example).ack_timeout = 10) ∧
    ((pub_example.pub (pub_example.topic_prefix ++ "/forecast")
        (Msg.json (JVal.arr (wd_example.forecast.map day_forecast_asdict)))).retain
        = false ∧
      (pub_example.pub (pub_example.topic_prefix ++ "/forecast")
        (Msg.json (JVal.arr (wd_example.forecast.map day_forecast_asdict)))).qos
        = 1) := by
  constructor
  · exact (publish_retain_qos_policy pub_example wd_example).1
      (legacy_cleanup_action pub_example)
      (by simp [ha_sensor_discovery_actions])
  · have h := (publish_retain_qos_policy pub_example wd_example).2.1
      (pub_example.pub (pub_example.topic_prefix ++ "/forecast")
        (Msg.json (JVal.arr (wd_example.forecast.map day_forecast_asdict))))
      (by simp [data_actions])
    exact ⟨h.1, h.2.1⟩

/-! ## C5 — per-metric current-condition scalars -/

/-- The metric keys of the per-metric scalar topics: the keys of the
`sensors` dict literal in `publish_weather`, source order. -/
def current_metric_keys : List String :=
  ["temperature", "feels_like", "humidity", "wind_speed", "wind_direction",
   "pressure", "visibility", "uv_index", "condition"]

theorem current_sensors_keys (c : CurrentConditions) :
    (current_sensors c).map Prod.fst = current_metric_keys := rfl

/-- Every topic published by `publish_weather` is of one of six shapes:
a discovery topic (ending in `g`), a per-metric current scalar, the raw
current topic, the forecast topic, an hourly sub-path topic, or the
aggregate-state topic. -/
theorem publish_topic_classes (p : MQTTPublisher) (wd : WeatherData) :
    ∀ a ∈ publish_weather p wd,
      last_char a.topic = some 'g' ∨
      (∃ c k v, wd.current = some c ∧ (k, some v) ∈ current_sensors c ∧
        a.topic = p.topic_prefix ++ ("/" ++ k)) ∨
      (wd.raw_current ≠ none ∧
        a.topic = p.topic_prefix ++ "/current") ∨
      a.topic = p.topic_prefix ++ "/forecast" ∨
      (∃ rest, a.topic = p.topic_prefix ++ ("/hourly/" ++ rest)) ∨
      a.topic = p.topic_prefix ++ "/ha_state" := by
  intro a ha
  rw [publish_weather, List.mem_append] at ha
  rcases ha with hd | hdat
  · left
    by_cases hflag : p.ha_discovery
    · rw [if_pos hflag] at hd
      exact ha_discovery_topic_last_char p wd a hd
    · rw [if_neg hflag] at hd
      cases hd
  · right
    simp only [data_actions, List.mem_append] at hdat
    rcases hdat with (((hc | hr) | hf) | hh) | hs
    · cases hcur : wd.current with
      | none => rw [hcur] at hc; cases hc
      | some c =>
        rw [hcur] at hc
        left
        simp only [current_sensor_actions, List.mem_filterMap] at hc
        obtain ⟨kv, hkv, hv⟩ := hc
        obtain ⟨v, hv2, rfl⟩ := Option.map_eq_some'.mp hv
        refine ⟨c, kv.1, v, rfl, ?_, ?_⟩
        · rw [← hv2]
          exact hkv
        · show p.topic_prefix ++ "/" ++ kv.1 = _
          rw [String.append_assoc]
    · cases hraw : wd.raw_current with
      | none => rw [hraw] at hr; cases hr
      | some raw =>
        rw [hraw] at hr
        have he := List.mem_singleton.mp hr
        subst he
        right; left
        exact ⟨by simp [hraw], rfl⟩
    · have he := List.mem_singleton.mp hf
      subst he
      right; right; left
      rfl
    · rw [List.mem_flatMap] at hh
      obtain ⟨hour, _, hm⟩ := hh
      right; right; right; left
      exact hourly_actions_topic p hour a hm
    · have he := List.mem_singleton.mp hs
      subst he
      right; right; right; right
      rfl

/-- An hourly sub-path suffix never coincides with `/current` or a
scalar-metric suffix. -/
theorem hourly_rest_ne (rest x : String)
    (hx : x ∈ "current" :: current_metric_keys) :
    "/hourly/" ++ rest ≠ "/" ++ x := by
  fin_cases hx <;>
    first
      | exact hourly_ne_slash _ _ 1 (by decide) (by decide)
      | exact hourly_ne_slash _ _ 2 (by decide) (by decide)

/-- When current conditions and the raw view are both absent, no
published topic is `{prefix}/current` or a per-metric scalar topic. -/
theorem no_scalar_topics_without_current (p : MQTTPublisher)
    (wd : WeatherData) (hc : wd.current = none)
    (hr : wd.raw_current = none) :
    ∀ a ∈ publish_weather p wd, ∀ x ∈ "current" :: current_metric_keys,
      a.topic ≠ p.topic_prefix ++ ("/" ++ x) := by
  intro a ha x hx heq
  rcases publish_topic_classes p wd a ha with hg | ⟨c, k, v, hcs, _, _⟩ |
    ⟨hrne, _⟩ | hf | ⟨rest, hh⟩ | hs
  · have h1 : last_char a.topic = last_char ("/" ++ x) := by
      rw [heq, last_char_append _ _ (by fin_cases hx <;> decide)]
    rw [hg] at h1
    revert h1
    fin_cases hx <;> decide
  · rw [hc] at hcs
    cases hcs
  · exact hrne hr
  · have h2 := string_append_cancel p.topic_prefix (hf.symm.trans heq)
    revert h2
    fin_cases hx <;> decide
  · exact hourly_rest_ne rest x hx
      (string_append_cancel p.topic_prefix (hh.symm.trans heq))
  · have h2 := string_append_cancel p.topic_prefix (hs.symm.trans heq)
    revert h2
    fin_cases hx <;> decide

/-- Counterexample to C5 as stated: with every §4.4 field present
(`wd_example`, icon code 30), the publisher emits no `weather/icon_code`
scalar topic — the published metric set is not the §4.4 field set. -/
theorem publish_current_scalars_counterexample :
    ((publish_weather pub_plain wd_example).map
      PublishAction.topic).contains "weather/icon_code" = false := by
  decide

/-- C5 (amended): when current conditions are present, the publisher
emits one scalar topic `{prefix}/{key}` as a bare non-JSON string for
each non-absent entry of the nine-metric `sensors` set (temperature,
feels-like, humidity, wind speed, wind direction, pressure, visibility,
UV index, condition — where `condition` carries the taxonomy-mapped icon
code, and neither the raw icon code nor the §4.4 condition phrase gets a
scalar topic), skipping absent values; when current conditions are absent
(and hence no raw view exists), `{prefix}/current` and all per-metric
scalar topics are omitted while `{prefix}/forecast` and
`{prefix}/ha_state` are still published. -/
theorem publish_current_scalars (p : MQTTPublisher) (wd : WeatherData) :
    (∀ c, wd.current = some c →
      ("condition", some (JVal.str (wu_to_ha_condition c.icon_code)))
        ∈ current_sensors c ∧
      (∀ k v, (k, some v) ∈ current_sensors c →
        p.pub (p.topic_prefix ++ "/" ++ k) (Msg.raw v)
          ∈ publish_weather p wd) ∧
      (∀ k, (k, (none : Option JVal)) ∈ current_sensors c →
        ∀ a ∈ publish_weather p wd,
          a.topic ≠ p.topic_prefix ++ "/" ++ k)) ∧
    (wd.current = none → wd.raw_current = none →
      (p.pub (p.topic_prefix ++ "/forecast")
        (Msg.json (JVal.arr (wd.forecast.map day_forecast_asdict)))
        ∈ publish_weather p wd) ∧
      (p.pub (p.topic_prefix ++ "/ha_state")
        (Msg.json (build_ha_state wd)) ∈ publish_weather p wd) ∧
      (∀ a ∈ publish_weather p wd,
        a.topic ≠ p.topic_prefix ++ "/current" ∧
        ∀ k ∈ current_metric_keys,
          a.topic ≠ p.topic_prefix ++ "/" ++ k)) := by
  constructor
  · intro c hcur
    refine ⟨by simp [current_sensors], ?_, ?_⟩
    · intro k v hkv
      rw [publish_weather, List.mem_append]
      right
      simp only [data_actions, List.mem_append]
      left; left; left; left
      rw [hcur]
      simp only [current_sensor_actions, List.mem_filterMap]
      exact ⟨(k, some v), hkv, rfl⟩
    · intro k hk a ha
      have hk9 : k ∈ current_metric_keys := by
        have hmapped : k ∈ (current_sensors c).map Prod.fst :=
          List.mem_map.mpr ⟨(k, (none : Option JVal)), hk, rfl⟩
        rwa [current_sensors_keys] at hmapped
      rw [String.append_assoc]
      intro heq
      rcases publish_topic_classes p wd a ha with hg |
        ⟨c2, k2, v2, hcs2, hkv2, ht2⟩ | ⟨hrne, ht3⟩ | hf | ⟨rest, hh⟩ | hsx
      · have h1 : last_char a.topic = last_char ("/" ++ k) := by
          rw [heq, last_char_append _ _ (by fin_cases hk9 <;> decide)]
        rw [hg] at h1
        revert h1
        fin_cases hk9 <;> decide
      · rw [hcur] at hcs2
        injection hcs2 with hc2
        subst hc2
        have hkk : k2 = k := string_append_cancel "/"
          (string_append_cancel p.topic_prefix (ht2.symm.trans heq))
        subst hkk
        have hnd : ((current_sensors c).map Prod.fst).Nodup := by
          rw [current_sensors_keys]
          decide
        cases mem_assoc_unique (current_sensors c) hnd hkv2 hk
      · have h2 := string_append_cancel p.topic_prefix
          (ht3.symm.trans heq)
        revert h2
        fin_cases hk9 <;> decide
      · have h2 := string_append_cancel p.topic_prefix
          (hf.symm.trans heq)
        revert h2
        fin_cases hk9 <;> decide
      · exact hourly_rest_ne rest k (List.mem_cons_of_mem _ hk9)
          (string_append_cancel p.topic_prefix (hh.symm.trans heq))
      · have h2 := string_append_cancel p.topic_prefix
          (hsx.symm.trans heq)
        revert h2
        fin_cases hk9 <;> decide
  · intro hc hr
    refine ⟨?_, ?_, ?_⟩
    · rw [publish_weather, List.mem_append]
      right
      simp only [data_actions, List.mem_append]
      left; left; right
      exact List.mem_singleton.mpr rfl
    · rw [publish_weather, List.mem_append]
      right
      simp only [data_actions, List.mem_append]
      right
      exact List.mem_singleton.mpr rfl
    · intro a ha
      have hx := no_scalar_topics_without_current p wd hc hr a ha
      constructor
      · have h1 := hx "current" (List.mem_cons_self _ _)
        rwa [show ("/" ++ "current" : String) = "/current" from by decide]
          at h1
      · intro k hk9
        have h1 := hx k (List.mem_cons_of_mem _ hk9)
        rwa [← String.append_assoc] at h1

/-- Witness for C5 (amended): with current present, the temperature
scalar is published as a raw string; with current absent, the forecast
topic is still published. -/
theorem publish_current_scalars_witness :
    (pub_plain.pub (pub_plain.topic_prefix ++ "/" ++ "temperature")
      (Msg.raw (JVal.num 12)) ∈ publish_weather pub_plain wd_example) ∧
    (pub_plain.pub (pub_plain.topic_prefix ++ "/forecast")
      (Msg.json (JVal.arr (wd_nocur.forecast.map day_forecast_asdict)))
      ∈ publish_weather pub_plain wd_nocur) := by
  constructor
  · exact ((publish_current_scalars pub_plain
      wd_example).1 current_example rfl).2.1 "temperature"
      (JVal.num 12) (List.mem_cons_self _ _)
  · exact ((publish_current_scalars pub_plain wd_nocur).2 rfl rfl).1

/-! ## C6 — aggregate HA state -/

/-- C6: the aggregate state payload published on `{prefix}/ha_state`
always contains a `forecast` key holding one object per forecast day with
exactly the keys {datetime, temperature, templow, condition,
precipitation_probability, precipitation, wind_speed, wind_bearing,
humidity} drawn from the day's date, max/min temperatures and daytime
daypart fields; every condition value (top-level and per-day) is produced
by the taxonomy mapper applied to the icon code; and when current
conditions are absent the top-level scalar fields are omitted while
`forecast` is still present. -/
theorem ha_state_shape (p : MQTTPublisher) (wd : WeatherData) :
    (p.pub (p.topic_prefix ++ "/ha_state") (Msg.json (build_ha_state wd))
      ∈ publish_weather p wd) ∧
    (∃ kvs, build_ha_state wd = JVal.obj kvs ∧
      kvs.lookup "forecast"
        = some (JVal.arr (wd.forecast.map ha_forecast_day))) ∧
    (∀ d : DayForecast, ∃ dkvs, ha_forecast_day d = JVal.obj dkvs ∧
      dkvs.map Prod.fst = ["datetime", "temperature", "templow",
        "condition", "precipitation_probability", "precipitation",
        "wind_speed", "wind_bearing", "humidity"] ∧
      dkvs.lookup "datetime" = some (JVal.str d.date) ∧
      dkvs.lookup "temperature" = some (jnum d.temp_max) ∧
      dkvs.lookup "templow" = some (jnum d.temp_min) ∧
      dkvs.lookup "condition"
        = some (JVal.str (wu_to_ha_condition d.icon_code_day)) ∧
      dkvs.lookup "precipitation_probability"
        = some (jint d.precip_chance_day) ∧
      dkvs.lookup "precipitation" = some (jnum d.qpf) ∧
      dkvs.lookup "wind_speed" = some (jnum d.wind_speed_day) ∧
      dkvs.lookup "wind_bearing" = some (jstr d.wind_direction_day) ∧
      dkvs.lookup "humidity" = some (jint d.humidity_day)) ∧
    (wd.current = none → build_ha_state wd
      = JVal.obj [("forecast",
          JVal.arr (wd.forecast.map ha_forecast_day))]) ∧
    (∀ c, wd.current = some c → ∃ kvs, build_ha_state wd = JVal.obj kvs ∧
      kvs.lookup "condition"
        = some (JVal.str (wu_to_ha_condition c.icon_code)) ∧
      kvs.lookup "temperature" = some (jnum c.temperature) ∧
      kvs.lookup "humidity" = some (jint c.humidity)) := by
  refine ⟨?_, ?_, ?_, ?_, ?_⟩
  · rw [publish_weather, List.mem_append]
    right
    simp only [data_actions, List.mem_append]
    right
    exact List.mem_singleton.mpr rfl
  · cases hcur : wd.current with
    | none =>
      refine ⟨[("forecast", JVal.arr (wd.forecast.map ha_forecast_day))],
        ?_, ?_⟩
      · simp [build_ha_state, hcur]
      · simp [List.lookup]
    | some c =>
      refine ⟨[("temperature", jnum c.temperature),
        ("humidity", jint c.humidity),
        ("wind_speed", jnum c.wind_speed),
        ("wind_bearing", jstr c.wind_direction_cardinal),
        ("pressure", jnum c.pressure),
        ("visibility", jnum c.visibility),
        ("condition", JVal.str (wu_to_ha_condition c.icon_code)),
        ("forecast", JVal.arr (wd.forecast.map ha_forecast_day))],
        ?_, ?_⟩
      · simp [build_ha_state, hcur]
      · simp [List.lookup]
  · intro d
    refine ⟨_, rfl, rfl, ?_, ?_, ?_, ?_, ?_, ?_, ?_, ?_, ?_⟩
    all_goals simp [List.lookup]
  · intro h
    simp [build_ha_state, h]
  · intro c h
    refine ⟨[("temperature", jnum c.temperature),
      ("humidity", jint c.humidity),
      ("wind_speed", jnum c.wind_speed),
      ("wind_bearing", jstr c.wind_direction_cardinal),
      ("pressure", jnum c.pressure),
      ("visibility", jnum c.visibility),
      ("condition", JVal.str (wu_to_ha_condition c.icon_code)),
      ("forecast", JVal.arr (wd.forecast.map ha_forecast_day))],
      ?_, ?_, ?_, ?_⟩
    · simp [build_ha_state, h]
    · simp [List.lookup]
    · simp [List.lookup]
    · simp [List.lookup]

/-- Witness for C6 at the concrete bundles: absent current yields only
the `forecast` key; present current (icon 30) puts the mapped condition
and the scalar values in the state object. -/
theorem ha_state_shape_witness :
    (build_ha_state wd_nocur = JVal.obj [("forecast",
      JVal.arr (wd_nocur.forecast.map ha_forecast_day))]) ∧
    (∃ kvs, build_ha_state wd_example = JVal.obj kvs ∧
      kvs.lookup "condition"
        = some (JVal.str (wu_to_ha_condition (some 30))) ∧
      kvs.lookup "temperature" = some (jnum (some 12)) ∧
      kvs.lookup "humidity" = some (jint (some 75))) := by
  refine ⟨(ha_state_shape pub_plain wd_nocur).2.2.2.1 rfl, ?_⟩
  exact (ha_state_shape pub_plain wd_example).2.2.2.2 current_example rfl

/-! ## C7 — discovery fan-out -/

/-- Every data-action topic extends `{topic_prefix}/`. -/
theorem data_actions_topic_slash (p : MQTTPublisher) (wd : WeatherData) :
    ∀ a ∈ data_actions p wd, ∃ rest : String,
      a.topic = p.topic_prefix ++ ("/" ++ rest) := by
  intro a ha
  simp only [data_actions, List.mem_append] at ha
  rcases ha with (((hc | hr) | hf) | hh) | hs
  · cases hcur : wd.current with
    | none => rw [hcur] at hc; cases hc
    | some c =>
      rw [hcur] at hc
      simp only [current_sensor_actions, List.mem_filterMap] at hc
      obtain ⟨kv, hkv, hv⟩ := hc
      obtain ⟨v, hv2, rfl⟩ := Option.map_eq_some'.mp hv
      exact ⟨kv.1, String.append_assoc ..⟩
  · cases hraw : wd.raw_current with
    | none => rw [hraw] at hr; cases hr
    | some raw =>
      rw [hraw] at hr
      have he := List.mem_singleton.mp hr
      subst he
      exact ⟨"current", by
        rw [show ("/" ++ "current" : String) = "/current" from by decide]
        rfl⟩
  · have he := List.mem_singleton.mp hf
    subst he
    exact ⟨"forecast", by
      rw [show ("/" ++ "forecast" : String) = "/forecast" from by decide]
      rfl⟩
  · rw [List.mem_flatMap] at hh
    obtain ⟨hour, _, hm⟩ := hh
    obtain ⟨rest, hrest⟩ := hourly_actions_topic p hour a hm
    refine ⟨"hourly/" ++ rest, ?_⟩
    rw [hrest, show ("/" ++ ("hourly/" ++ rest) : String)
      = "/hourly/" ++ rest from by
        rw [← String.append_assoc]
        rw [show ("/" ++ "hourly/" : String) = "/hourly/" from by decide]]
  · have he := List.mem_singleton.mp hs
    subst he
    exact ⟨"ha_state", by
      rw [show ("/" ++ "ha_state" : String) = "/ha_state" from by decide]
      rfl⟩

theorem prefix_of_slash_form (tp rest t : String)
    (h : t = tp ++ ("/" ++ rest)) : (tp ++ "/").data <+: t.data := by
  subst h
  simp only [String.data_append]
  rw [← List.append_assoc]
  exact List.prefix_append _ _

/-- C7: with discovery enabled, the publish run is exactly 9 fixed
sensor documents, then 3 documents per hour of `hourlyToday`, then the
legacy aggregate-entity cleanup (an empty retained payload, the last
discovery publish), followed by the data publishes; all discovery
documents carry the same device metadata.  With discovery disabled the
run is exactly the data publishes, and (for non-overlapping topic
prefixes) no published topic extends the discovery prefix. -/
theorem discovery_publish_spec (p : MQTTPublisher) (wd : WeatherData) :
    (p.ha_discovery = true →
      publish_weather p wd = fixed_sensor_doc_actions p
        ++ hourly_sensor_doc_actions p wd ++ [legacy_cleanup_action p]
        ++ data_actions p wd) ∧
    (fixed_sensor_doc_actions p).length = 9 ∧
    (hourly_sensor_doc_actions p wd).length
      = 3 * wd.hourly_today.length ∧
    (∀ a ∈ fixed_sensor_doc_actions p ++ hourly_sensor_doc_actions p wd,
      ∃ kvs, a.msg = Msg.json (JVal.obj kvs) ∧
        ("device", discovery_device) ∈ kvs) ∧
    (ha_sensor_discovery_actions p wd).getLast?
      = some (legacy_cleanup_action p) ∧
    legacy_cleanup_action p
      = { topic := p.ha_discovery_prefix ++ "/weather/wu_mqtt_bridge/config"
          msg := Msg.lit "", retain := true, qos := 1, ack_timeout := 10 } ∧
    (p.ha_discovery = false →
      publish_weather p wd = data_actions p wd ∧
      (¬ (p.ha_discovery_prefix ++ "/").data <+:
          (p.topic_prefix ++ "/").data →
       ¬ (p.topic_prefix ++ "/").data <+:
          (p.ha_discovery_prefix ++ "/").data →
        ∀ a ∈ publish_weather p wd,
          ¬ (p.ha_discovery_prefix ++ "/").data <+: a.topic.data)) := by
  refine ⟨?_, ?_, ?_, ?_, ?_, rfl, ?_⟩
  · intro h
    rw [publish_weather, ha_sensor_discovery_actions, if_pos h]
  · simp [fixed_sensor_doc_actions, discovery_sensors]
  · unfold hourly_sensor_doc_actions
    induction wd.hourly_today with
    | nil => rfl
    | cons h t ih =>
      simp only [List.flatMap_cons, List.length_append, List.length_cons,
        List.length_map, ih]
      simp [hourly_sensor_descrs]
      omega
  · intro a ha
    rw [List.mem_append] at ha
    rcases ha with hfix | hhr
    · simp only [fixed_sensor_doc_actions, List.mem_map] at hfix
      obtain ⟨s, _, rfl⟩ := hfix
      refine ⟨_, rfl, ?_⟩
      simp [sensor_config]
    · simp only [hourly_sensor_doc_actions, List.mem_flatMap,
        List.mem_map] at hhr
      obtain ⟨hour, _, s, _, rfl⟩ := hhr
      refine ⟨_, rfl, ?_⟩
      simp [hourly_sensor_config]
  · rw [ha_sensor_discovery_actions]
    exact List.getLast?_concat ..
  · intro h
    have hpub : publish_weather p wd = data_actions p wd := by
      rw [publish_weather, if_neg (by simp [h])]
      rfl
    refine ⟨hpub, ?_⟩
    intro hn1 hn2 a ha hdp
    rw [hpub] at ha
    obtain ⟨rest, hrest⟩ := data_actions_topic_slash p wd a ha
    have htp := prefix_of_slash_form p.topic_prefix rest a.topic hrest
    rcases List.prefix_or_prefix_of_prefix hdp htp with h1 | h2
    · exact hn1 h1
    · exact hn2 h2

/-- Witness for C7: with discovery enabled the run decomposes into the
three discovery segments followed by the data publishes; with discovery
disabled the run is exactly the data publishes. -/
theorem discovery_publish_spec_witness :
    publish_weather pub_example wd_example
      = fixed_sensor_doc_actions pub_example
        ++ hourly_sensor_doc_actions pub_example wd_example
        ++ [legacy_cleanup_action pub_example]
        ++ data_actions pub_example wd_example ∧
    publish_weather pub_plain wd_example
      = data_actions pub_plain wd_example :=
  ⟨(discovery_publish_spec pub_example wd_example).1 rfl,
   ((discovery_publish_spec pub_plain wd_example).2.2.2.2.2.2 rfl).1⟩

/-! ## C8 — raw current-observation view -/

/-- The field names of the `CurrentConditions` dataclass, declaration
order. -/
def current_conditions_field_names : List String :=
  ["temperature", "feels_like", "humidity", "wind_speed",
   "wind_direction_cardinal", "uv_index", "condition", "icon_code",
   "pressure", "visibility"]

/-- Counterexample to C8 as stated: the raw view's keys are not the
typed record's field names — the dict flattens
`wind_direction_cardinal` to `wind_direction`. -/
theorem raw_current_view_keys_counterexample :
    (raw_current_view current_example).map Prod.fst
      ≠ current_conditions_field_names := by
  decide

/-- C8 (amended): in the bundle assembled by `fetch_all`, the flattened
raw-object view exists exactly when the current-conditions fetch
succeeded; its keys are the typed record's field names except that
`wind_direction_cardinal` is flattened to `wind_direction`; when present
the object is published as a JSON payload on `{prefix}/current`; and
when the fetch failed no raw view exists and no published topic is
`{prefix}/current`. -/
theorem raw_current_view_spec (co : FetchOutcome CurrentData)
    (fo : FetchOutcome ForecastData) (ho : FetchOutcome HourlyData)
    (wd : WeatherData) (hok : fetch_all co fo ho = Except.ok wd) :
    (wd.raw_current = none ↔ wd.current = none) ∧
    (∀ c, wd.current = some c →
      wd.raw_current = some (raw_current_view c) ∧
      (raw_current_view c).map Prod.fst
        = ["temperature", "feels_like", "humidity", "wind_speed",
           "wind_direction", "uv_index", "condition", "icon_code",
           "pressure", "visibility"]) ∧
    (∀ (p : MQTTPublisher) raw, wd.raw_current = some raw →
      p.pub (p.topic_prefix ++ "/current") (Msg.json (JVal.obj raw))
        ∈ publish_weather p wd) ∧
    (∀ p : MQTTPublisher, wd.current = none →
      ∀ a ∈ publish_weather p wd,
        a.topic ≠ p.topic_prefix ++ "/current") := by
  have hrel : wd.raw_current = wd.current.map raw_current_view := by
    unfold fetch_all at hok
    cases ffo : fetch_forecast fo with
    | error e =>
      rw [ffo] at hok
      cases hok
    | ok pr =>
      obtain ⟨fc, rawf⟩ := pr
      simp only [ffo] at hok
      injection hok with hok
      subst hok
      rfl
  refine ⟨?_, ?_, ?_, ?_⟩
  · rw [hrel]
    exact Option.map_eq_none'
  · intro c hc
    rw [hrel, hc]
    exact ⟨rfl, rfl⟩
  · intro p raw hra
    rw [publish_weather, List.mem_append]
    right
    simp only [data_actions, List.mem_append]
    left; left; left; right
    rw [hra]
    exact List.mem_singleton.mpr rfl
  · intro p hcn a ha
    have hr0 : wd.raw_current = none := by
      rw [hrel, hcn]
      rfl
    have h1 := no_scalar_topics_without_current p wd hcn hr0 a ha
      "current" (List.mem_cons_self _ _)
    rwa [show ("/" ++ "current" : String) = "/current" from by decide]
      at h1

/-- A concrete successful current-observation body. -/
def current_data_example : CurrentData :=
  { temperature := some 12, temperatureFeelsLike := some 11,
    relativeHumidity := some 75, windSpeed := some 20,
    windDirectionCardinal := some "SW", uvIndex := some 2,
    wxPhraseLong := some "Partiellement nuageux", iconCode := some 30,
    pressureAltimeter := some 1015, visibility := some 10 }

/-- The bundle `fetch_all` assembles from three successful outcomes. -/
def wd_fetch_example : WeatherData :=
  { current := some (decode_current current_data_example)
    forecast := parse_forecast forecast_example
    hourly_today := (parse_hourly hourly_example).getD []
    raw_current :=
      some (raw_current_view (decode_current current_data_example))
    raw_forecast := forecast_example }

/-- Witness for C8 (amended): on a successful run the raw view is
materialized with the flattened key set. -/
theorem raw_current_view_spec_witness :
    wd_fetch_example.raw_current
      = some (raw_current_view (decode_current current_data_example)) ∧
    (raw_current_view (decode_current current_data_example)).map Prod.fst
      = ["temperature", "feels_like", "humidity", "wind_speed",
         "wind_direction", "uv_index", "condition", "icon_code",
         "pressure", "visibility"] :=
  (raw_current_view_spec (FetchOutcome.success current_data_example)
    (FetchOutcome.success forecast_example)
    (FetchOutcome.success hourly_example) wd_fetch_example rfl).2.1
    (decode_current current_data_example) rfl

/-! ## C9 — JSON serialization round trip -/

theorem hex_digit_val : ∀ n : Nat, n < 16 →
    hex_val (hex_digit n) = some n := by
  decide

/-! Step lemmas for the string-literal parser. -/

theorem json_string_body_quote (rest : List Char) :
    json_string_body ('"' :: rest) = some ([], rest) := by
  conv_lhs => unfold json_string_body
  simp

theorem json_string_body_esc_quote (t : List Char) :
    json_string_body ('\\' :: '"' :: t)
      = (json_string_body t).map (fun p => ('"' :: p.1, p.2)) := by
  conv_lhs => unfold json_string_body
  simp

theorem json_string_body_esc_backslash (t : List Char) :
    json_string_body ('\\' :: '\\' :: t)
      = (json_string_body t).map (fun p => ('\\' :: p.1, p.2)) := by
  conv_lhs => unfold json_string_body
  simp

theorem json_string_body_esc_n (t : List Char) :
    json_string_body ('\\' :: 'n' :: t)
      = (json_string_body t).map (fun p => ('\n' :: p.1, p.2)) := by
  conv_lhs => unfold json_string_body
  simp

theorem json_string_body_esc_r (t : List Char) :
    json_string_body ('\\' :: 'r' :: t)
      = (json_string_body t).map (fun p => ('\r' :: p.1, p.2)) := by
  conv_lhs => unfold json_string_body
  simp

theorem json_string_body_esc_t (t : List Char) :
    json_string_body ('\\' :: 't' :: t)
      = (json_string_body t).map (fun p => ('\t' :: p.1, p.2)) := by
  conv_lhs => unfold json_string_body
  simp

theorem json_string_body_esc_b (t : List Char) :
    json_string_body ('\\' :: 'b' :: t)
      = (json_string_body t).map (fun p => (Char.ofNat 8 :: p.1, p.2)) := by
  conv_lhs => unfold json_string_body
  simp

theorem json_string_body_esc_f (t : List Char) :
    json_string_body ('\\' :: 'f' :: t)
      = (json_string_body t).map (fun p => (Char.ofNat 12 :: p.1, p.2)) := by
  conv_lhs => unfold json_string_body
  simp

theorem json_string_body_esc_u (h1 h2 h3 h4 : Char) (t : List Char)
    (v1 v2 v3 v4 : Nat) (e1 : hex_val h1 = some v1)
    (e2 : hex_val h2 = some v2) (e3 : hex_val h3 = some v3)
    (e4 : hex_val h4 = some v4) :
    json_string_body ('\\' :: 'u' :: h1 :: h2 :: h3 :: h4 :: t)
      = (json_string_body t).map (fun p =>
          (Char.ofNat (((v1 * 16 + v2) * 16 + v3) * 16 + v4) :: p.1,
           p.2)) := by
  conv_lhs => unfold json_string_body
  simp [e1, e2, e3, e4]

theorem json_string_body_plain (c : Char) (rest : List Char)
    (h1 : c ≠ '"') (h2 : c ≠ '\\') :
    json_string_body (c :: rest)
      = (json_string_body rest).map (fun p => (c :: p.1, p.2)) := by
  conv_lhs => unfold json_string_body
  rw [if_neg h1, if_neg h2]

/-! Conditional evaluation rules for `json_escape_char`. -/

theorem json_escape_char_eq_b (c : Char) (h1 : c ≠ '"') (h2 : c ≠ '\\')
    (h3 : c ≠ '\n') (h4 : c ≠ '\r') (h5 : c ≠ '\t') (h6 : c.toNat = 8) :
    json_escape_char c = ['\\', 'b'] := by
  unfold json_escape_char
  rw [if_neg h1, if_neg h2, if_neg h3, if_neg h4, if_neg h5, if_pos h6]

theorem json_escape_char_eq_f (c : Char) (h1 : c ≠ '"') (h2 : c ≠ '\\')
    (h3 : c ≠ '\n') (h4 : c ≠ '\r') (h5 : c ≠ '\t') (h6 : c.toNat ≠ 8)
    (h7 : c.toNat = 12) : json_escape_char c = ['\\', 'f'] := by
  unfold json_escape_char
  rw [if_neg h1, if_neg h2, if_neg h3, if_neg h4, if_neg h5, if_neg h6,
    if_pos h7]

theorem json_escape_char_eq_ctrl (c : Char) (h1 : c ≠ '"') (h2 : c ≠ '\\')
    (h3 : c ≠ '\n') (h4 : c ≠ '\r') (h5 : c ≠ '\t') (h6 : c.toNat ≠ 8)
    (h7 : c.toNat ≠ 12) (h8 : c.toNat < 32) :
    json_escape_char c = ['\\', 'u', '0', '0',
      hex_digit (c.toNat / 16), hex_digit (c.toNat % 16)] := by
  unfold json_escape_char
  rw [if_neg h1, if_neg h2, if_neg h3, if_neg h4, if_neg h5, if_neg h6,
    if_neg h7, if_pos h8]

theorem json_escape_char_eq_plain (c : Char) (h1 : c ≠ '"')
    (h2 : c ≠ '\\') (h3 : c ≠ '\n') (h4 : c ≠ '\r') (h5 : c ≠ '\t')
    (h6 : c.toNat ≠ 8) (h7 : c.toNat ≠ 12) (h8 : ¬ c.toNat < 32) :
    json_escape_char c = [c] := by
  unfold json_escape_char
  rw [if_neg h1, if_neg h2, if_neg h3, if_neg h4, if_neg h5, if_neg h6,
    if_neg h7, if_neg h8]

/-- Parsing undoes per-character escaping: the body parser consumes the
escaped content up to the closing quote and returns it verbatim. -/
theorem json_string_body_escape (cs : List Char) :
    ∀ rest : List Char,
      json_string_body (cs.flatMap json_escape_char ++ ('"' :: rest))
        = some (cs, rest) := by
  induction cs with
  | nil =>
    intro rest
    rw [List.flatMap_nil, List.nil_append, json_string_body_quote]
  | cons c cs ih =>
    intro rest
    rw [List.flatMap_cons, List.append_assoc]
    by_cases h1 : c = '"'
    · subst h1
      rw [show json_escape_char '"' = ['\\', '"'] from by decide]
      simp only [List.cons_append, List.nil_append]
      rw [json_string_body_esc_quote, ih]
      rfl
    by_cases h2 : c = '\\'
    · subst h2
      rw [show json_escape_char '\\' = ['\\', '\\'] from by decide]
      simp only [List.cons_append, List.nil_append]
      rw [json_string_body_esc_backslash, ih]
      rfl
    by_cases h3 : c = '\n'
    · subst h3
      rw [show json_escape_char '\n' = ['\\', 'n'] from by decide]
      simp only [List.cons_append, List.nil_append]
      rw [json_string_body_esc_n, ih]
      rfl
    by_cases h4 : c = '\r'
    · subst h4
      rw [show json_escape_char '\r' = ['\\', 'r'] from by decide]
      simp only [List.cons_append, List.nil_append]
      rw [json_string_body_esc_r, ih]
      rfl
    by_cases h5 : c = '\t'
    · subst h5
      rw [show json_escape_char '\t' = ['\\', 't'] from by decide]
      simp only [List.cons_append, List.nil_append]
      rw [json_string_body_esc_t, ih]
      rfl
    by_cases h6 : c.toNat = 8
    · have hc : c = Char.ofNat 8 := by rw [← h6, Char.ofNat_toNat]
      rw [json_escape_char_eq_b c h1 h2 h3 h4 h5 h6]
      simp only [List.cons_append, List.nil_append]
      rw [json_string_body_esc_b, ih, hc]
      rfl
    by_cases h7 : c.toNat = 12
    · have hc : c = Char.ofNat 12 := by rw [← h7, Char.ofNat_toNat]
      rw [json_escape_char_eq_f c h1 h2 h3 h4 h5 h6 h7]
      simp only [List.cons_append, List.nil_append]
      rw [json_string_body_esc_f, ih, hc]
      rfl
    by_cases h8 : c.toNat < 32
    · rw [json_escape_char_eq_ctrl c h1 h2 h3 h4 h5 h6 h7 h8]
      simp only [List.cons_append, List.nil_append]
      rw [json_string_body_esc_u '0' '0' _ _ _ 0 0 (c.toNat / 16)
        (c.toNat % 16) (by decide) (by decide)
        (hex_digit_val _ (by omega)) (hex_digit_val _ (by omega)), ih]
      rw [show ((0 * 16 + 0) * 16 + c.toNat / 16) * 16 + c.toNat % 16
        = c.toNat from by omega, Char.ofNat_toNat]
      rfl
    · rw [json_escape_char_eq_plain c h1 h2 h3 h4 h5 h6 h7 h8]
      simp only [List.singleton_append]
      rw [json_string_body_plain c _ h1 h2, ih]
      rfl

/-- C9: `json.dumps(…, ensure_ascii=False)` (as used by `_publish` and
the discovery publishes) serializes payload strings without
ASCII-escaping non-ASCII characters: every non-ASCII character of the
source string appears verbatim in the serialized form, and
deserializing the serialized string recovers the source string exactly
(serialize-then-parse is the identity on payload strings). -/
theorem json_roundtrip_spec :
    (∀ s : String, json_parse_string (json_dumps_string s) = some s) ∧
    (∀ s : String, ∀ c ∈ s.data, 127 < c.toNat →
      json_escape_char c = [c] ∧ c ∈ (json_dumps_string s).data) := by
  have hesc : ∀ c : Char, 127 < c.toNat → json_escape_char c = [c] := by
    intro c h
    unfold json_escape_char
    rw [if_neg (by rintro rfl; exact absurd h (by decide)),
      if_neg (by rintro rfl; exact absurd h (by decide)),
      if_neg (by rintro rfl; exact absurd h (by decide)),
      if_neg (by rintro rfl; exact absurd h (by decide)),
      if_neg (by rintro rfl; exact absurd h (by decide)),
      if_neg (by omega), if_neg (by omega), if_neg (by omega)]
  constructor
  · intro s
    show Option.bind
      (json_string_body (s.data.flatMap json_escape_char ++ ('"' :: [])))
      (fun p => if p.2 = [] then some (String.mk p.1) else none) = some s
    rw [json_string_body_escape s.data []]
    rfl
  · intro s c hc h
    refine ⟨hesc c h, ?_⟩
    show c ∈ '"' :: (s.data.flatMap json_escape_char ++ ['"'])
    refine List.mem_cons_of_mem _ (List.mem_append.mpr (Or.inl ?_))
    rw [List.mem_flatMap]
    exact ⟨c, hc, by rw [hesc c h]; exact List.mem_singleton.mpr rfl⟩

/-- Witness for C9 on accented text: `"Température"` round-trips and its
`é` is emitted verbatim. -/
theorem json_roundtrip_spec_witness :
    json_parse_string (json_dumps_string "Température")
      = some "Température" ∧
    'é' ∈ (json_dumps_string "Température").data :=
  ⟨json_roundtrip_spec.1 "Température",
   (json_roundtrip_spec.2 "Température" 'é' (by decide) (by decide)).2⟩

end WuMqttBridge
